import Mathlib

/-!
# Connectivity manager (components/wifi_module/src/wifi_module.c)

A shallow embedding of the Wi-Fi station manager.  The three file-level
variables of the C module become the fields of `World`; every request made to
a collaborator (Wi-Fi driver, netif, FreeRTOS) is appended to `World.log`, and
so is every store to `s_is_connected` and every event handed to the handler.
The replies of the collaborators, and the events that arrive while the calling
task is blocked, are supplied by an `Env` (a scripted stub).

Conventions
* `esp_err_t` is `Int`; the constants carry the values of ESP-IDF's headers.
* `ESP_ERROR_CHECK(x)` aborts the program when `x != ESP_OK`: `Outcome.abort`.
* `ESP_LOGx` diagnostics are not modelled.
* The event context runs only while the calling task is blocked
  (`vTaskDelay`, `xSemaphoreTake`) or between two public operations.
* A C string is the list of its characters before the terminating NUL;
  a null pointer is `none`.
-/

namespace WifiModule

/-! ## Constants of the platform headers -/

abbrev esp_err_t := Int

def ESP_OK : esp_err_t := 0
def ESP_ERR_NO_MEM : esp_err_t := 0x101
def ESP_ERR_INVALID_ARG : esp_err_t := 0x102
def ESP_ERR_INVALID_STATE : esp_err_t := 0x103
def ESP_ERR_TIMEOUT : esp_err_t := 0x107
def ESP_ERR_WIFI_NOT_CONNECT : esp_err_t := 0x300F
def ESP_FAIL : esp_err_t := -1
def ESP_ERR_NVS_NO_FREE_PAGES : esp_err_t := 0x110D
def ESP_ERR_NVS_NEW_VERSION_FOUND : esp_err_t := 0x1110

abbrev wifi_mode_t := Nat
def WIFI_MODE_STA : wifi_mode_t := 1

/-- Event bases: the two the module registers for, and any other. -/
inductive esp_event_base_t where
  | WIFI_EVENT
  | IP_EVENT
  | OTHER (n : Nat)
  deriving DecidableEq, Repr

def WIFI_EVENT_SCAN_DONE : Int := 1
def WIFI_EVENT_STA_START : Int := 2
def WIFI_EVENT_STA_DISCONNECTED : Int := 5
def IP_EVENT_STA_GOT_IP : Int := 0

/-- Line 16. -/
def WIFI_SCAN_MAX_AP : Nat := 30
/-- Line 17: connect timeout in seconds. -/
def WIFI_CONNECT_TIMEOUT : Nat := 30

/-- Size in bytes of `wifi_config.sta.ssid`. -/
def SSID_FIELD_SIZE : Nat := 32
/-- Size in bytes of `wifi_config.sta.password`. -/
def PASSWORD_FIELD_SIZE : Nat := 64

/-! ## Observable actions -/

/-- An event as the handler receives it: base, id, and for `IP_EVENT_STA_GOT_IP`
the address `event->ip_info.ip.addr` carried by `event_data`. -/
structure Event where
  event_base : esp_event_base_t
  event_id : Int
  event_data : Nat
  deriving DecidableEq, Repr

/-- Requests to the collaborators.  `vTaskDelay ms` and `xSemaphoreTake ms`
stand for the calls with argument `pdMS_TO_TICKS(ms)`. -/
inductive Call where
  | esp_wifi_get_mode
  | vTaskDelay (ms : Nat)
  | esp_wifi_scan_stop
  | esp_wifi_set_country (cc : List Char) (schan nchan : Nat)
  | esp_wifi_scan_start
  | xSemaphoreTake (ms : Nat)
  | xSemaphoreGiveFromISR
  | esp_wifi_scan_get_ap_num
  | malloc (records : Nat)
  | esp_wifi_scan_get_ap_records
  | free
  | esp_wifi_set_config (ssid password : List Char)
  | esp_wifi_connect
  | esp_wifi_disconnect
  | esp_wifi_sta_get_ap_info
  | esp_netif_get_ip_info
  | nvs_flash_init
  | nvs_flash_erase
  | nvs_open
  | nvs_erase_all
  | nvs_commit
  | nvs_close
  | esp_netif_init
  | esp_event_loop_create_default
  | esp_netif_create_default_wifi_sta
  | esp_wifi_init
  | esp_event_handler_register (base : esp_event_base_t)
  | esp_wifi_set_mode (mode : wifi_mode_t)
  | xSemaphoreCreateBinary
  | esp_wifi_start
  | esp_wifi_stop
  | esp_event_handler_unregister (base : esp_event_base_t)
  | esp_netif_destroy
  | vSemaphoreDelete
  | esp_wifi_deinit
  | nvs_flash_deinit
  deriving DecidableEq, Repr

/-- One entry of the timeline. -/
inductive Obs where
  /-- a request made by the task that called a public operation -/
  | call (c : Call)
  /-- a request made by `event_handler` on the event context -/
  | hcall (c : Call)
  /-- an event handed to `event_handler` -/
  | deliver (e : Event)
  /-- a store to `s_is_connected` -/
  | store_is_connected (b : Bool)
  deriving DecidableEq, Repr

/-- The module's file-level variables (lines 20-22) and the timeline.
`s_scan_sem = none` is the NULL handle; `some b` is a binary semaphore whose
single slot holds a pending signal iff `b`. -/
structure World where
  s_netif : Option Nat
  s_is_connected : Bool
  s_scan_sem : Option Bool
  log : List Obs
  deriving DecidableEq, Repr

/-- Result of a public operation returning `esp_err_t`. -/
inductive Outcome where
  | ret (err : esp_err_t)
  | abort
  deriving DecidableEq, Repr

/-- The scripted stub: replies of the collaborators during one public
operation, and the events delivered while the caller is blocked. -/
structure Env where
  /-- value found in `mode` after the i-th `esp_wifi_get_mode` (i from 0) -/
  get_mode : Nat → wifi_mode_t
  /-- events delivered during the caller's i-th `vTaskDelay` (i from 0) -/
  during_delay : Nat → List Event
  /-- events delivered while the caller is blocked in `xSemaphoreTake` -/
  during_take : List Event
  scan_stop : esp_err_t
  scan_start : esp_err_t
  /-- return value and the count written to `ap_count` -/
  scan_get_ap_num : esp_err_t × Nat
  /-- whether `malloc` returns a non-null pointer -/
  malloc_ok : Bool
  scan_get_ap_records : esp_err_t
  set_config : esp_err_t
  connect : esp_err_t
  disconnect : esp_err_t
  /-- return value and `ap_info.rssi` (an `int8_t`) -/
  sta_get_ap_info : esp_err_t × Int
  /-- return value and `ip_info.ip.addr` (a `uint32_t`) -/
  get_ip_info : esp_err_t × Nat

def World.emit (w : World) (o : Obs) : World :=
  { w with log := w.log ++ [o] }

/-- The assignment `s_is_connected = b`. -/
def World.set_is_connected (w : World) (b : Bool) : World :=
  { w with s_is_connected := b, log := w.log ++ [Obs.store_is_connected b] }

/-- The assignment `s_netif = h`. -/
def World.set_netif (w : World) (h : Option Nat) : World :=
  { w with s_netif := h }

/-- The assignment `s_scan_sem = s`. -/
def World.set_scan_sem (w : World) (s : Option Bool) : World :=
  { w with s_scan_sem := s }

/-! ## event_handler (lines 28-57) -/

/-- Giving a binary semaphore: the slot becomes full; giving a full slot
changes nothing (the give fails, no count accumulates). -/
def xSemaphoreGiveFromISR (w : World) : World :=
  { w.emit (Obs.hcall Call.xSemaphoreGiveFromISR) with s_scan_sem := w.s_scan_sem.map (fun _ => true) }

def event_handler (e : Event) (w : World) : World :=
  let w := w.emit (Obs.deliver e)
  if e.event_base = esp_event_base_t.WIFI_EVENT then
    if e.event_id = WIFI_EVENT_STA_START then
      w.emit (Obs.hcall Call.esp_wifi_connect)
    else if e.event_id = WIFI_EVENT_STA_DISCONNECTED then
      let w := w.set_is_connected false
      let w := w.emit (Obs.hcall (Call.vTaskDelay 3000))
      w.emit (Obs.hcall Call.esp_wifi_connect)
    else if e.event_id = WIFI_EVENT_SCAN_DONE then
      if w.s_scan_sem ≠ none then xSemaphoreGiveFromISR w else w
    else w
  else if e.event_base = esp_event_base_t.IP_EVENT ∧ e.event_id = IP_EVENT_STA_GOT_IP then
    w.set_is_connected true
  else w

/-- Deliver a batch of events, in order. -/
def deliver_all : List Event → World → World
  | [], w => w
  | e :: es, w => deliver_all es (event_handler e w)

/-- The caller's i-th `vTaskDelay(pdMS_TO_TICKS(ms))`: the call is logged and
the events scripted for that delay are handled while the caller sleeps. -/
def vTaskDelay (env : Env) (i ms : Nat) (w : World) : World :=
  deliver_all (env.during_delay i) (w.emit (Obs.call (Call.vTaskDelay ms)))

/-- Blocked part of `xSemaphoreTake`: events are handled one at a time; the
first one that fills the slot wakes the caller, which empties the slot.  With
the script exhausted the wait times out. -/
def take_wait : List Event → World → Bool × World
  | [], w => (false, w)
  | e :: es, w =>
    let w := event_handler e w
    if w.s_scan_sem = some true then (true, { w with s_scan_sem := some false })
    else take_wait es w

/-- The call `xSemaphoreTake(s_scan_sem, pdMS_TO_TICKS(ms))`: a signal already
pending is consumed at once, otherwise the caller blocks. -/
def xSemaphoreTake (env : Env) (ms : Nat) (w : World) : Bool × World :=
  let w := w.emit (Obs.call (Call.xSemaphoreTake ms))
  if w.s_scan_sem = some true then (true, { w with s_scan_sem := some false })
  else take_wait env.during_take w

/-! ## String helpers of libc -/

abbrev CString := List Char

/-- The string left in `dst` by `strlcpy(dst, src, size)`: at most `size - 1`
characters of `src`, NUL-terminated; nothing is written when `size` is 0. -/
def strlcpy (dst src : CString) (size : Nat) : CString :=
  if size = 0 then dst else src.take (size - 1)

/-! ## wifi_module_connect (lines 244-285) -/

/-- The polling loop of lines 273-276, started with `timeout_cnt = cnt`.
The first argument bounds the number of iterations; `WIFI_CONNECT_TIMEOUT`
suffices because the loop runs only while `timeout_cnt < WIFI_CONNECT_TIMEOUT`. -/
def connect_poll (env : Env) : Nat → Nat → World → Nat × World
  | 0, cnt, w => (cnt, w)
  | n + 1, cnt, w =>
    if !w.s_is_connected && decide (cnt < WIFI_CONNECT_TIMEOUT) then
      connect_poll env n (cnt + 1) (vTaskDelay env cnt 1000 w)
    else (cnt, w)

def wifi_module_connect (env : Env) (ssid password : Option CString) (w : World) :
    Outcome × World :=
  match ssid with
  | none => (Outcome.ret ESP_ERR_INVALID_ARG, w)
  | some ssid =>
    if ssid.length = 0 then (Outcome.ret ESP_ERR_INVALID_ARG, w) else
    let cfg_ssid := strlcpy [] ssid SSID_FIELD_SIZE
    let cfg_password :=
      match password with
      | some p => strlcpy [] p PASSWORD_FIELD_SIZE
      | none => []
    let w := w.emit (Obs.call (Call.esp_wifi_set_config cfg_ssid cfg_password))
    if env.set_config ≠ ESP_OK then (Outcome.abort, w) else
    let w := w.emit (Obs.call Call.esp_wifi_connect)
    if env.connect ≠ ESP_OK then (Outcome.abort, w) else
    let (_, w) := connect_poll env WIFI_CONNECT_TIMEOUT 0 w
    if w.s_is_connected then (Outcome.ret ESP_OK, w)
    else (Outcome.ret ESP_ERR_TIMEOUT, w)

/-! ## wifi_module_scan_ap (lines 123-238) -/

/-- The readiness loop of lines 126-135, started with `retry`; returns the
final value of `retry`.  The first argument bounds the number of iterations;
30 suffices because the loop runs only while `retry < 30`. -/
def sta_ready_poll (env : Env) : Nat → Nat → World → Nat × World
  | 0, retry, w => (retry, w)
  | n + 1, retry, w =>
    if retry < 30 then
      let w := w.emit (Obs.call Call.esp_wifi_get_mode)
      if env.get_mode retry = WIFI_MODE_STA then (retry, w)
      else sta_ready_poll env n (retry + 1) (vTaskDelay env retry 100 w)
    else (retry, w)

/-- Lines 141-238: the scan proper, entered once `retry < 30`.  The loop of
lines 215-232 only prints the fetched records and is not modelled. -/
def scan_after_ready (env : Env) (w : World) : Outcome × World :=
  if w.s_scan_sem = none then (Outcome.ret ESP_ERR_INVALID_STATE, w) else
  let w := w.emit (Obs.call Call.esp_wifi_scan_stop)
  if env.scan_stop ≠ ESP_OK then (Outcome.abort, w) else
  let w := w.emit (Obs.call (Call.esp_wifi_set_country ['C', 'N'] 1 13))
  let w := w.emit (Obs.call Call.esp_wifi_scan_start)
  let err := env.scan_start
  if err ≠ ESP_OK then (Outcome.ret err, w) else
  let (taken, w) := xSemaphoreTake env 10000 w
  if taken = false then (Outcome.ret ESP_ERR_TIMEOUT, w) else
  let w := w.emit (Obs.call Call.esp_wifi_scan_get_ap_num)
  if env.scan_get_ap_num.1 ≠ ESP_OK then (Outcome.abort, w) else
  let ap_count := env.scan_get_ap_num.2
  if ap_count = 0 then (Outcome.ret ESP_OK, w) else
  let w := w.emit (Obs.call (Call.malloc ap_count))
  if env.malloc_ok = false then (Outcome.ret ESP_ERR_NO_MEM, w) else
  let w := w.emit (Obs.call Call.esp_wifi_scan_get_ap_records)
  if env.scan_get_ap_records ≠ ESP_OK then (Outcome.abort, w) else
  let w := w.emit (Obs.call Call.free)
  (Outcome.ret ESP_OK, w)

def wifi_module_scan_ap (env : Env) (w : World) : Outcome × World :=
  let (retry, w) := sta_ready_poll env 30 0 w
  if retry ≥ 30 then (Outcome.ret ESP_ERR_TIMEOUT, w) else
  scan_after_ready env w

/-! ## wifi_module_get_ip (lines 291-314) -/

/-- Byte `i` of the address in memory (`IP2STR`, little-endian target). -/
def ip4_addr_byte (addr i : Nat) : Nat := addr / 256 ^ i % 256

/-- The text produced by `IPSTR` ("%d.%d.%d.%d") applied to `IP2STR(&ip)`. -/
def format_ip (addr : Nat) : CString :=
  (Nat.repr (ip4_addr_byte addr 0)).toList ++ ['.'] ++
  (Nat.repr (ip4_addr_byte addr 1)).toList ++ ['.'] ++
  (Nat.repr (ip4_addr_byte addr 2)).toList ++ ['.'] ++
  (Nat.repr (ip4_addr_byte addr 3)).toList

/-- The string left in `dst` by `snprintf(dst, size, ...)` whose full output
is `text`: truncated to `size - 1` characters. -/
def snprintf (dst : CString) (size : Nat) (text : CString) : CString :=
  if size = 0 then dst else text.take (size - 1)

/-- Returns the result, the contents of the caller's buffer after the call
(`none` for a null `ip_str`), and the world. -/
def wifi_module_get_ip (env : Env) (ip_str : Option CString) (len : Nat) (w : World) :
    Outcome × Option CString × World :=
  match ip_str with
  | none => (Outcome.ret ESP_ERR_INVALID_ARG, none, w)
  | some buf =>
    if len < 16 then (Outcome.ret ESP_ERR_INVALID_ARG, some buf, w) else
    if !w.s_is_connected then
      (Outcome.ret ESP_ERR_WIFI_NOT_CONNECT, some (strlcpy buf "Not connected".toList len), w)
    else
    let w := w.emit (Obs.call Call.esp_netif_get_ip_info)
    let err := env.get_ip_info.1
    if err ≠ ESP_OK then
      (Outcome.ret err, some (strlcpy buf "Get IP failed".toList len), w)
    else
    (Outcome.ret ESP_OK, some (snprintf buf len (format_ip env.get_ip_info.2)), w)

/-! ## wifi_module_get_rssi (lines 320-339) -/

def wifi_module_get_rssi (env : Env) (w : World) : Int × World :=
  if !w.s_is_connected then (-127, w) else
  let w := w.emit (Obs.call Call.esp_wifi_sta_get_ap_info)
  if env.sta_get_ap_info.1 ≠ ESP_OK then (-127, w) else
  (env.sta_get_ap_info.2, w)

/-! ## wifi_module_disconnect (lines 345-354) -/

def wifi_module_disconnect (env : Env) (w : World) : Outcome × World :=
  let w := w.emit (Obs.call Call.esp_wifi_disconnect)
  let err := env.disconnect
  if err = ESP_OK then (Outcome.ret err, w.set_is_connected false)
  else (Outcome.ret err, w)

/-! ## wifi_module_init (lines 63-117) and wifi_module_deinit (lines 360-384) -/

/-- Replies of the collaborators during `wifi_module_init`. -/
structure InitEnv where
  nvs_flash_init_first : esp_err_t
  nvs_flash_erase : esp_err_t
  nvs_flash_init_second : esp_err_t
  nvs_open : esp_err_t
  esp_netif_init : esp_err_t
  esp_event_loop_create_default : esp_err_t
  /-- the handle returned by `esp_netif_create_default_wifi_sta` (`none` = NULL) -/
  create_default_wifi_sta : Option Nat
  esp_wifi_init : esp_err_t
  register_wifi_event : esp_err_t
  register_ip_event : esp_err_t
  esp_wifi_set_mode : esp_err_t
  esp_wifi_set_config : esp_err_t
  /-- whether `xSemaphoreCreateBinary` returns a non-null handle -/
  semaphore_created : Bool
  esp_wifi_start : esp_err_t

/-- Lines 72-77: reset the `wifi_config` namespace when it can be opened. -/
def init_clear_wifi_config (env : InitEnv) (w : World) : World :=
  let w := w.emit (Obs.call Call.nvs_open)
  if env.nvs_open = ESP_OK then
    ((w.emit (Obs.call Call.nvs_erase_all)).emit (Obs.call Call.nvs_commit)).emit
      (Obs.call Call.nvs_close)
  else w

/-- Lines 79-116: the steps after the NVS bring-up. -/
def init_after_nvs (env : InitEnv) (w : World) : Outcome × World :=
  let w := w.emit (Obs.call Call.esp_netif_init)
  if env.esp_netif_init ≠ ESP_OK then (Outcome.abort, w) else
  let w := w.emit (Obs.call Call.esp_event_loop_create_default)
  if env.esp_event_loop_create_default ≠ ESP_OK then (Outcome.abort, w) else
  let w := (w.emit (Obs.call Call.esp_netif_create_default_wifi_sta)).set_netif
    env.create_default_wifi_sta
  let w := w.emit (Obs.call Call.esp_wifi_init)
  if env.esp_wifi_init ≠ ESP_OK then (Outcome.abort, w) else
  let w := w.emit (Obs.call (Call.esp_event_handler_register esp_event_base_t.WIFI_EVENT))
  if env.register_wifi_event ≠ ESP_OK then (Outcome.abort, w) else
  let w := w.emit (Obs.call (Call.esp_event_handler_register esp_event_base_t.IP_EVENT))
  if env.register_ip_event ≠ ESP_OK then (Outcome.abort, w) else
  let w := w.emit (Obs.call (Call.esp_wifi_set_mode WIFI_MODE_STA))
  if env.esp_wifi_set_mode ≠ ESP_OK then (Outcome.abort, w) else
  let w := w.emit (Obs.call (Call.esp_wifi_set_config [] []))
  if env.esp_wifi_set_config ≠ ESP_OK then (Outcome.abort, w) else
  let w := (w.emit (Obs.call Call.xSemaphoreCreateBinary)).set_scan_sem
    (if env.semaphore_created then some false else none)
  if w.s_scan_sem = none then (Outcome.ret ESP_ERR_NO_MEM, w) else
  let w := w.emit (Obs.call Call.esp_wifi_start)
  if env.esp_wifi_start ≠ ESP_OK then (Outcome.abort, w) else
  (Outcome.ret ESP_OK, w)

def wifi_module_init (env : InitEnv) (w : World) : Outcome × World :=
  let w := w.emit (Obs.call Call.nvs_flash_init)
  let err := env.nvs_flash_init_first
  if err = ESP_ERR_NVS_NO_FREE_PAGES ∨ err = ESP_ERR_NVS_NEW_VERSION_FOUND then
    let w := w.emit (Obs.call Call.nvs_flash_erase)
    if env.nvs_flash_erase ≠ ESP_OK then (Outcome.abort, w) else
    let w := w.emit (Obs.call Call.nvs_flash_init)
    if env.nvs_flash_init_second ≠ ESP_OK then (Outcome.abort, w) else
    init_after_nvs env (init_clear_wifi_config env w)
  else
    if err ≠ ESP_OK then (Outcome.abort, w) else
    init_after_nvs env (init_clear_wifi_config env w)

/-- Replies of the collaborators during `wifi_module_deinit`. -/
structure DeinitEnv where
  esp_wifi_disconnect : esp_err_t
  esp_wifi_stop : esp_err_t
  unregister_ip_event : esp_err_t
  unregister_wifi_event : esp_err_t
  esp_wifi_deinit : esp_err_t
  nvs_flash_deinit : esp_err_t

/-- Lines 370-377: release the netif handle and the semaphore, each only
when it is not NULL. -/
def deinit_release (w : World) : World :=
  let w : World :=
    if w.s_netif ≠ none then (w.emit (Obs.call Call.esp_netif_destroy)).set_netif none
    else w
  if w.s_scan_sem ≠ none then (w.emit (Obs.call Call.vSemaphoreDelete)).set_scan_sem none
  else w

def wifi_module_deinit (env : DeinitEnv) (w : World) : Outcome × World :=
  let w := w.emit (Obs.call Call.esp_wifi_disconnect)
  if env.esp_wifi_disconnect ≠ ESP_OK then (Outcome.abort, w) else
  let w := w.emit (Obs.call Call.esp_wifi_stop)
  if env.esp_wifi_stop ≠ ESP_OK then (Outcome.abort, w) else
  let w := w.emit (Obs.call (Call.esp_event_handler_unregister esp_event_base_t.IP_EVENT))
  if env.unregister_ip_event ≠ ESP_OK then (Outcome.abort, w) else
  let w := w.emit (Obs.call (Call.esp_event_handler_unregister esp_event_base_t.WIFI_EVENT))
  if env.unregister_wifi_event ≠ ESP_OK then (Outcome.abort, w) else
  let w := deinit_release w
  let w := w.emit (Obs.call Call.esp_wifi_deinit)
  if env.esp_wifi_deinit ≠ ESP_OK then (Outcome.abort, w) else
  let w := w.emit (Obs.call Call.nvs_flash_deinit)
  if env.nvs_flash_deinit ≠ ESP_OK then (Outcome.abort, w) else
  (Outcome.ret ESP_OK, w)

/-! ## Reading the timeline -/

/-- The requests made by the calling task, in order. -/
def caller_calls : List Obs → List Call
  | [] => []
  | Obs.call c :: l => c :: caller_calls l
  | _ :: l => caller_calls l

/-- The stores to `s_is_connected`, in order. -/
def flag_stores : List Obs → List Bool
  | [] => []
  | Obs.store_is_connected b :: l => b :: flag_stores l
  | _ :: l => flag_stores l

/-- Total time, in ms, the calling task spent in `vTaskDelay`. -/
def delay_ms : List Call → Nat
  | [] => 0
  | Call.vTaskDelay ms :: l => ms + delay_ms l
  | _ :: l => delay_ms l

/-- The world after `m` consecutive delays of the caller, numbered from
`start`, with nothing else in between. -/
def after_delays (env : Env) (ms : Nat) : Nat → Nat → World → World
  | _, 0, w => w
  | start, m + 1, w => after_delays env ms (start + 1) m (vTaskDelay env start ms w)

/-- The value of `s_is_connected` that `wifi_module_connect`, entered in
world `w`, finds at the check that follows `j` one-second waits. -/
def flag_at_check (env : Env) (w : World) (j : Nat) : Bool :=
  (after_delays env 1000 0 j w).s_is_connected

/-- The world in which `wifi_module_scan_ap`, entered in world `w`, leaves
its readiness loop, and the number of waits it made. -/
def scan_ready (env : Env) (w : World) : Nat × World := sta_ready_poll env 30 0 w

def is_scan_done (e : Event) : Bool :=
  e.event_base = esp_event_base_t.WIFI_EVENT && e.event_id = WIFI_EVENT_SCAN_DONE

/-- The world after `m` rounds of the readiness loop that did not find
station mode: check the mode, wait 100 ms; rounds numbered from `start`. -/
def after_mode_checks (env : Env) : Nat → Nat → World → World
  | _, 0, w => w
  | start, m + 1, w =>
    after_mode_checks env (start + 1) m
      (vTaskDelay env start 100 (w.emit (Obs.call Call.esp_wifi_get_mode)))

/-- The requests of `m` rounds of the readiness loop. -/
def mode_check_rounds : Nat → List Call
  | 0 => []
  | m + 1 => Call.esp_wifi_get_mode :: Call.vTaskDelay 100 :: mode_check_rounds m

/-- Whether a timeline holds a scan-complete delivery. -/
def has_scan_done_delivery : List Obs → Bool
  | [] => false
  | Obs.deliver e :: l => is_scan_done e || has_scan_done_delivery l
  | _ :: l => has_scan_done_delivery l

/-- The part of a timeline that follows the first scan request of the calling
task (empty when there is none). -/
def after_scan_request : List Obs → List Obs
  | [] => []
  | o :: l => if o = Obs.call Call.esp_wifi_scan_start then l else after_scan_request l

/-- The requests the calling task added to the timeline `before` to reach
the timeline `after`. -/
def calls_since (before after : List Obs) : List Call :=
  (caller_calls after).drop (caller_calls before).length

/-- The module's variables without the timeline. -/
def World.vars (w : World) : Option Nat × Bool × Option Bool :=
  (w.s_netif, w.s_is_connected, w.s_scan_sem)

/-- The requests made by `event_handler` on the event context, in order. -/
def handler_calls : List Obs → List Call
  | [] => []
  | Obs.hcall c :: l => c :: handler_calls l
  | _ :: l => handler_calls l

def is_got_ip (e : Event) : Bool :=
  e.event_base = esp_event_base_t.IP_EVENT && e.event_id = IP_EVENT_STA_GOT_IP

/-- The station-disconnected event carrying `d` as `event_data`. -/
def sta_disconnected (d : Nat) : Event :=
  ⟨esp_event_base_t.WIFI_EVENT, WIFI_EVENT_STA_DISCONNECTED, d⟩

/-- The station-started event carrying `d` as `event_data`. -/
def sta_start (d : Nat) : Event :=
  ⟨esp_event_base_t.WIFI_EVENT, WIFI_EVENT_STA_START, d⟩

/-- The handler-side requests of `n` successive reconnect rounds. -/
def reconnect_rounds : Nat → List Call
  | 0 => []
  | n + 1 => Call.vTaskDelay 3000 :: Call.esp_wifi_connect :: reconnect_rounds n

/-- World `w'` has the connected flag of `w`, and its timeline holds no
store to the flag and no handler-side request beyond those of `w`. -/
def flag_untouched (w w' : World) : Prop :=
  w'.s_is_connected = w.s_is_connected ∧ flag_stores w'.log = flag_stores w.log ∧
    handler_calls w'.log = handler_calls w.log

/-- No event is delivered while the caller is blocked during the operation. -/
def no_event_during (env : Env) : Prop :=
  (∀ i, env.during_delay i = []) ∧ env.during_take = []

/-! ## Sample events, stubs and worlds -/

def ev_scan_done : Event := ⟨esp_event_base_t.WIFI_EVENT, WIFI_EVENT_SCAN_DONE, 0⟩
def ev_sta_start : Event := ⟨esp_event_base_t.WIFI_EVENT, WIFI_EVENT_STA_START, 0⟩
def ev_sta_disconnected : Event := ⟨esp_event_base_t.WIFI_EVENT, WIFI_EVENT_STA_DISCONNECTED, 0⟩
def ev_got_ip (addr : Nat) : Event := ⟨esp_event_base_t.IP_EVENT, IP_EVENT_STA_GOT_IP, addr⟩

/-- A stub in station mode that accepts every request, reports no access
point and emits no event. -/
def stub_silent : Env where
  get_mode := fun _ => WIFI_MODE_STA
  during_delay := fun _ => []
  during_take := []
  scan_stop := ESP_OK
  scan_start := ESP_OK
  scan_get_ap_num := (ESP_OK, 0)
  malloc_ok := true
  scan_get_ap_records := ESP_OK
  set_config := ESP_OK
  connect := ESP_OK
  disconnect := ESP_OK
  sta_get_ap_info := (ESP_OK, -61)
  get_ip_info := (ESP_OK, 0x0A01A8C0)

/-- As `stub_silent`, with ip-acquired delivered during the caller's third
wait. -/
def stub_ip_in_third_wait : Env :=
  { stub_silent with during_delay := fun i => if i = 2 then [ev_got_ip 0x0A01A8C0] else [] }

/-- The variables as a successful `wifi_module_init` leaves them, with an
empty timeline. -/
def world_ready : World := ⟨some 1, false, some false, []⟩

/-- As `world_ready`, already connected. -/
def world_connected : World := ⟨some 1, true, some false, []⟩

/-- As `stub_silent`, but station mode is never reported. -/
def stub_never_sta : Env := { stub_silent with get_mode := fun _ => 0 }

/-- As `stub_silent`, but station mode is first reported at the third check. -/
def stub_sta_at_third_check : Env :=
  { stub_silent with get_mode := fun i => if i < 2 then 0 else WIFI_MODE_STA }

/-- As `stub_silent`, with scan-complete delivered during the semaphore wait. -/
def stub_scan_completes : Env := { stub_silent with during_take := [ev_scan_done] }

/-- The world in which a second scan starts in the following execution from
`world_ready`: a first scan whose wait expires (no event arrives during it),
then the scan-complete of that first scan, delivered late. -/
def world_after_late_scan_done : World :=
  event_handler ev_scan_done (wifi_module_scan_ap stub_silent world_ready).2

/-- As `stub_silent`, but the current-AP query and the disconnect request
fail with `ESP_FAIL` (-1). -/
def stub_failing : Env :=
  { stub_silent with sta_get_ap_info := (-1, 0), disconnect := -1 }

/-- A stub on which every step of `wifi_module_deinit` succeeds. -/
def deinit_stub_ok : DeinitEnv where
  esp_wifi_disconnect := ESP_OK
  esp_wifi_stop := ESP_OK
  unregister_ip_event := ESP_OK
  unregister_wifi_event := ESP_OK
  esp_wifi_deinit := ESP_OK
  nvs_flash_deinit := ESP_OK

end WifiModule

/-!
# Display driver (components/oled/src/sh1106.c)

Text output of the SH1106 driver.  The I2C bus is a scripted stub: the n-th
transaction handed to `i2c_master_cmd_begin` returns `i2c n`.  `Panel` keeps
the transactions issued and, as a ghost record, the arguments of every call of
`sh1106_show_char`.  The glyph table of `font6x8.c` is a parameter.  The
`uint8_t` coordinates are naturals below 256, with `% 256` where the C code
can overflow.
-/

namespace Sh1106

open WifiModule (esp_err_t ESP_OK ESP_FAIL CString)

/-- The device record of lines 11-16. -/
structure sh1106_dev_t where
  i2c_port : Nat
  i2c_addr : Nat
  width : Nat
  height : Nat
  deriving DecidableEq, Repr

/-- One I2C transaction: the address byte, then a control byte (0x00 for a
command, 0x40 for data), then the payload. -/
inductive Transfer where
  | command (addr_byte cmd : Nat)
  | data (addr_byte : Nat) (bytes : List Nat)
  deriving DecidableEq, Repr

structure Panel where
  /-- the I2C transactions issued, in order -/
  transfers : List Transfer
  /-- the calls `sh1106_show_char(dev, x, y, c)` made, in order -/
  calls : List (Nat × Nat × Char)
  deriving DecidableEq, Repr

/-- Lines 21-35. -/
def sh1106_send_command (i2c : Nat → esp_err_t) (dev : Option sh1106_dev_t) (cmd : Nat)
    (p : Panel) : esp_err_t × Panel :=
  match dev with
  | none => (ESP_FAIL, p)
  | some device =>
    (i2c p.transfers.length,
      { p with transfers := p.transfers ++ [Transfer.command (device.i2c_addr * 2 % 256) cmd] })

/-- Lines 40-54; `data = none` is the null pointer. -/
def sh1106_send_data (i2c : Nat → esp_err_t) (dev : Option sh1106_dev_t)
    (data : Option (List Nat)) (len : Nat) (p : Panel) : esp_err_t × Panel :=
  match dev, data with
  | some device, some bytes =>
    if len = 0 then (ESP_FAIL, p) else
    (i2c p.transfers.length,
      { p with
        transfers := p.transfers ++ [Transfer.data (device.i2c_addr * 2 % 256) (bytes.take len)] })
  | _, _ => (ESP_FAIL, p)

/-- Lines 252-258: the six bytes sent for character `c`, zeros unless `c` is
printable and its glyph lies inside the table. -/
def char_data (font6x8 : List Nat) (c : Char) : List Nat :=
  if ' ' ≤ c ∧ c ≤ '~' then
    let index := (c.toNat - ' '.toNat) * 6
    if index + 6 ≤ font6x8.length then (font6x8.drop index).take 6
    else [0, 0, 0, 0, 0, 0]
  else [0, 0, 0, 0, 0, 0]

/-- Lines 238-262. -/
def sh1106_show_char (font6x8 : List Nat) (i2c : Nat → esp_err_t) (dev : Option sh1106_dev_t)
    (x y : Nat) (c : Char) (p : Panel) : esp_err_t × Panel :=
  let p : Panel := { p with calls := p.calls ++ [(x, y, c)] }
  if dev.isNone ∨ x ≥ 128 ∨ y ≥ 8 then (ESP_FAIL, p) else
  let r := sh1106_send_command i2c dev ((0xB0 + y) % 256) p
  if r.1 ≠ ESP_OK then r else
  let r := sh1106_send_command i2c dev ((0x00 + ((x + 2) &&& 0x0F)) % 256) r.2
  if r.1 ≠ ESP_OK then r else
  let r := sh1106_send_command i2c dev ((0x10 + (((x + 2) >>> 4) &&& 0x0F)) % 256) r.2
  if r.1 ≠ ESP_OK then r else
  sh1106_send_data i2c dev (some (char_data font6x8 c)) 6 r.2

/-- The loop of lines 270-284 over the characters still to show, with the
counters `current_x`, `current_y`. -/
def show_string_loop (font6x8 : List Nat) (i2c : Nat → esp_err_t) (dev : Option sh1106_dev_t) :
    List Char → Nat → Nat → Panel → esp_err_t × Panel
  | [], _, _, p => (ESP_OK, p)
  | c :: cs, current_x, current_y, p =>
    let wrap := decide (current_x + 6 > 128)
    let current_x := if wrap then 0 else current_x
    let current_y := if wrap then (current_y + 1) % 256 else current_y
    if wrap ∧ current_y ≥ 8 then (ESP_OK, p) else
    let r := sh1106_show_char font6x8 i2c dev current_x current_y c p
    if r.1 ≠ ESP_OK then r else
    show_string_loop font6x8 i2c dev cs ((current_x + 6) % 256) current_y r.2

/-- Lines 264-287; `str = none` is the null pointer. -/
def sh1106_show_string (font6x8 : List Nat) (i2c : Nat → esp_err_t)
    (dev : Option sh1106_dev_t) (x y : Nat) (str : Option CString) (p : Panel) :
    esp_err_t × Panel :=
  match str with
  | none => (ESP_FAIL, p)
  | some s =>
    if dev.isNone then (ESP_FAIL, p) else
    show_string_loop font6x8 i2c dev s x y p

/-- The page selected by a transaction, when it is a page-address command
(0xB0 and above). -/
def page_of : Transfer → Option Nat
  | Transfer.command _ cmd => if 0xB0 ≤ cmd then some (cmd - 0xB0) else none
  | Transfer.data _ _ => none

/-- How one call of `sh1106_show_char` follows the previous one: six columns
further on the same page, or at column 0 of the next page. -/
def follows (a b : Nat × Nat × Char) : Prop :=
  (b.1 = a.1 + 6 ∧ b.2.1 = a.2.1) ∨ (b.1 = 0 ∧ b.2.1 = a.2.1 + 1 ∧ a.1 + 12 > 128)

/-- Every call in the list follows the one before it. -/
def steps_follow : List (Nat × Nat × Char) → Prop
  | [] => True
  | [_] => True
  | a :: b :: l => follows a b ∧ steps_follow (b :: l)

/-- What a run over the characters `cs` has added to the panel record `p` to
reach `r`: calls `L` and transactions `T` such that every call is at a column
`cx` with `cx + 6 ≤ 128`, each call follows the previous one, the characters
passed are a prefix of `cs` in order, the first call (if any) is at `start`,
and every page command selects a page below 8. -/
def run_adds (cs : List Char) (start : Nat × Nat) (p r : Panel) : Prop :=
  ∃ (L : List (Nat × Nat × Char)) (T : List Transfer),
    r.calls = p.calls ++ L ∧ r.transfers = p.transfers ++ T ∧
    (∀ q ∈ L, q.1 + 6 ≤ 128) ∧ steps_follow L ∧
    L.map (fun q => q.2.2) <+: cs ∧
    (∀ q, L.head? = some q → (q.1, q.2.1) = start) ∧
    (∀ t ∈ T, ∀ pg, page_of t = some pg → pg < 8)

/-- The calls of `sh1106_show_char` recorded in `r` beyond those of `p`. -/
def calls_added (p r : Panel) : List (Nat × Nat × Char) :=
  r.calls.drop p.calls.length

/-- The I2C transactions recorded in `r` beyond those of `p`. -/
def transfers_added (p r : Panel) : List Transfer :=
  r.transfers.drop p.transfers.length

/-- A display at the address and size `main.c` configures. -/
def dev_main : sh1106_dev_t := ⟨0, 0x3C, 128, 64⟩

/-- A bus on which every transaction succeeds. -/
def i2c_ok : Nat → esp_err_t := fun _ => ESP_OK

/-- A blank panel record. -/
def panel_blank : Panel := ⟨[], []⟩

end Sh1106

namespace WifiModule

/-! ## Basic facts about the timeline and the handler -/

theorem caller_calls_append (l₁ l₂ : List Obs) :
    caller_calls (l₁ ++ l₂) = caller_calls l₁ ++ caller_calls l₂ := by
  induction l₁ with
  | nil => rfl
  | cons o l ih => cases o <;> simp [caller_calls, ih]

theorem flag_stores_append (l₁ l₂ : List Obs) :
    flag_stores (l₁ ++ l₂) = flag_stores l₁ ++ flag_stores l₂ := by
  induction l₁ with
  | nil => rfl
  | cons o l ih => cases o <;> simp [flag_stores, ih]

theorem delay_ms_append (l₁ l₂ : List Call) :
    delay_ms (l₁ ++ l₂) = delay_ms l₁ + delay_ms l₂ := by
  induction l₁ with
  | nil => simp [delay_ms]
  | cons c l ih => cases c <;> simp [delay_ms, ih, Nat.add_assoc]

theorem delay_ms_replicate (m ms : Nat) :
    delay_ms (List.replicate m (Call.vTaskDelay ms)) = m * ms := by
  induction m with
  | zero => simp [delay_ms]
  | succ m ih => simp [List.replicate_succ, delay_ms, ih, Nat.succ_mul, Nat.add_comm]

/-- The handler's effect on the variables depends on the variables only. -/
theorem event_handler_vars (e : Event) (w₁ w₂ : World) (h : w₁.vars = w₂.vars) :
    (event_handler e w₁).vars = (event_handler e w₂).vars := by
  obtain ⟨n₁, c₁, s₁, l₁⟩ := w₁
  obtain ⟨n₂, c₂, s₂, l₂⟩ := w₂
  simp only [World.vars, Prod.mk.injEq] at h
  obtain ⟨rfl, rfl, rfl⟩ := h
  simp only [event_handler, World.emit, World.set_is_connected, xSemaphoreGiveFromISR, World.vars]
  split_ifs <;> rfl

/-- The handler makes no request on behalf of the calling task. -/
theorem event_handler_caller_calls (e : Event) (w : World) :
    caller_calls (event_handler e w).log = caller_calls w.log := by
  simp only [event_handler, World.emit, World.set_is_connected, xSemaphoreGiveFromISR]
  split_ifs <;> simp [caller_calls_append, caller_calls]

theorem deliver_all_vars (es : List Event) (w₁ w₂ : World) (h : w₁.vars = w₂.vars) :
    (deliver_all es w₁).vars = (deliver_all es w₂).vars := by
  induction es generalizing w₁ w₂ with
  | nil => exact h
  | cons e es ih => exact ih _ _ (event_handler_vars e w₁ w₂ h)

theorem deliver_all_caller_calls (es : List Event) (w : World) :
    caller_calls (deliver_all es w).log = caller_calls w.log := by
  induction es generalizing w with
  | nil => rfl
  | cons e es ih => simp [deliver_all, ih, event_handler_caller_calls]

theorem vTaskDelay_vars (env : Env) (i ms : Nat) (w₁ w₂ : World) (h : w₁.vars = w₂.vars) :
    (vTaskDelay env i ms w₁).vars = (vTaskDelay env i ms w₂).vars :=
  deliver_all_vars _ _ _ h

theorem vTaskDelay_caller_calls (env : Env) (i ms : Nat) (w : World) :
    caller_calls (vTaskDelay env i ms w).log = caller_calls w.log ++ [Call.vTaskDelay ms] := by
  simp [vTaskDelay, deliver_all_caller_calls, World.emit, caller_calls_append, caller_calls]

theorem after_delays_vars (env : Env) (ms : Nat) (m : Nat) :
    ∀ (start : Nat) (w₁ w₂ : World), w₁.vars = w₂.vars →
      (after_delays env ms start m w₁).vars = (after_delays env ms start m w₂).vars := by
  induction m with
  | zero => intro _ _ _ h; exact h
  | succ m ih =>
    intro start w₁ w₂ h
    exact ih _ _ _ (vTaskDelay_vars env start ms w₁ w₂ h)

theorem after_delays_caller_calls (env : Env) (ms : Nat) (m : Nat) :
    ∀ (start : Nat) (w : World),
      caller_calls (after_delays env ms start m w).log =
        caller_calls w.log ++ List.replicate m (Call.vTaskDelay ms) := by
  induction m with
  | zero => intro _ w; simp [after_delays]
  | succ m ih =>
    intro start w
    simp only [after_delays]
    rw [ih, vTaskDelay_caller_calls, List.replicate_succ]
    simp

theorem vars_is_connected {w₁ w₂ : World} (h : w₁.vars = w₂.vars) :
    w₁.s_is_connected = w₂.s_is_connected := by
  simp only [World.vars, Prod.mk.injEq] at h
  exact h.2.1

/-- The polling loop of `wifi_module_connect`: if the flag is false at the
first `m` checks and the loop must stop at check `m` (flag true, or counter at
the limit), it stops there, having made exactly `m` waits. -/
theorem connect_poll_spec (env : Env) (m : Nat) :
    ∀ (n cnt : Nat) (w : World),
      (∀ j, j < m → (after_delays env 1000 cnt j w).s_is_connected = false) →
      ((after_delays env 1000 cnt m w).s_is_connected = true ∨ cnt + m = WIFI_CONNECT_TIMEOUT) →
      cnt + m ≤ WIFI_CONNECT_TIMEOUT → m ≤ n →
      connect_poll env n cnt w = (cnt + m, after_delays env 1000 cnt m w) := by
  induction m with
  | zero =>
    intro n cnt w _ hstop _ _
    cases n with
    | zero => rfl
    | succ n =>
      simp only [after_delays, Nat.add_zero] at hstop
      rcases hstop with h | h
      · simp [connect_poll, after_delays, h]
      · simp [connect_poll, after_delays, h]
  | succ m ih =>
    intro n cnt w hfalse hstop hle hn
    cases n with
    | zero => omega
    | succ n =>
      have h0 : w.s_is_connected = false := hfalse 0 (Nat.succ_pos m)
      have hlt : cnt < WIFI_CONNECT_TIMEOUT := by omega
      have step := ih n (cnt + 1) (vTaskDelay env cnt 1000 w)
        (fun j hj => hfalse (j + 1) (Nat.succ_lt_succ hj))
        (by
          rcases hstop with h | h
          · exact Or.inl h
          · exact Or.inr (by omega))
        (by omega) (by omega)
      simp only [connect_poll, h0, hlt, after_delays, step]
      simp [Nat.add_assoc, Nat.add_comm 1 m]

theorem emit_vars (w : World) (o : Obs) : (w.emit o).vars = w.vars := rfl

/-- What `wifi_module_connect` does with a non-empty ssid once both requests
are accepted and the polling loop must stop at check `m`. -/
theorem connect_run (env : Env) (ssid : CString) (password : Option CString) (w : World)
    (m : Nat) (hssid : ssid ≠ []) (hcfg : env.set_config = ESP_OK)
    (hreq : env.connect = ESP_OK)
    (hfalse : ∀ j, j < m → flag_at_check env w j = false)
    (hstop : flag_at_check env w m = true ∨ m = WIFI_CONNECT_TIMEOUT)
    (hm : m ≤ WIFI_CONNECT_TIMEOUT) :
    (wifi_module_connect env (some ssid) password w).1 =
        (if flag_at_check env w m then Outcome.ret ESP_OK else Outcome.ret ESP_ERR_TIMEOUT) ∧
    caller_calls (wifi_module_connect env (some ssid) password w).2.log =
      caller_calls w.log ++
        [Call.esp_wifi_set_config (strlcpy [] ssid SSID_FIELD_SIZE)
            (match password with
             | some p => strlcpy [] p PASSWORD_FIELD_SIZE
             | none => []),
         Call.esp_wifi_connect] ++
        List.replicate m (Call.vTaskDelay 1000) := by
  have hlen : ssid.length ≠ 0 := by
    intro h; exact hssid (List.length_eq_zero.mp h)
  generalize hw0 : ((w.emit (Obs.call (Call.esp_wifi_set_config (strlcpy [] ssid SSID_FIELD_SIZE)
            (match password with
             | some p => strlcpy [] p PASSWORD_FIELD_SIZE
             | none => [])))).emit (Obs.call Call.esp_wifi_connect)) = w0
  have hv : w0.vars = w.vars := by rw [← hw0]; rfl
  have hflag : ∀ j, (after_delays env 1000 0 j w0).s_is_connected = flag_at_check env w j :=
    fun j => vars_is_connected (after_delays_vars env 1000 j 0 w0 w hv)
  have hpoll := connect_poll_spec env m WIFI_CONNECT_TIMEOUT 0 w0
    (fun j hj => by rw [hflag]; exact hfalse j hj)
    (by
      rcases hstop with h | h
      · exact Or.inl (by rw [hflag]; exact h)
      · exact Or.inr (by omega))
    (by omega) hm
  have hrun : wifi_module_connect env (some ssid) password w =
      (if (after_delays env 1000 0 m w0).s_is_connected then Outcome.ret ESP_OK
        else Outcome.ret ESP_ERR_TIMEOUT, after_delays env 1000 0 m w0) := by
    simp only [wifi_module_connect, hlen, hcfg, hreq, hw0, hpoll, if_false, ne_eq,
      not_true_eq_false]
    split_ifs <;> rfl
  rw [hrun]
  refine ⟨by simp only [hflag], ?_⟩
  simp only [after_delays_caller_calls]
  rw [← hw0]
  simp [World.emit, caller_calls_append, caller_calls]

/-- Claim C1. `wifi_module_connect` called with a null or empty ssid, whatever
the password, returns `ESP_ERR_INVALID_ARG` and hands back the world it was
given: nothing is added to the timeline (no `esp_wifi_set_config`, no
`esp_wifi_connect`, no `vTaskDelay`) and `s_is_connected` keeps its value. -/
theorem connect_rejects_empty_ssid (env : Env) (ssid password : Option CString) (w : World)
    (h : ssid = none ∨ ssid = some []) :
    wifi_module_connect env ssid password w = (Outcome.ret ESP_ERR_INVALID_ARG, w) := by
  rcases h with rfl | rfl <;> rfl

theorem connect_rejects_empty_ssid_witness :
    ((some [] : Option CString) = none ∨ (some [] : Option CString) = some []) ∧
    wifi_module_connect stub_silent (some []) (some ['p', 'w']) world_connected =
      (Outcome.ret ESP_ERR_INVALID_ARG, world_connected) :=
  ⟨Or.inr rfl, connect_rejects_empty_ssid stub_silent (some []) (some ['p', 'w'])
    world_connected (Or.inr rfl)⟩

/-- Claim C2. For a non-empty ssid, once the configuration and connect requests
are accepted (so that polling starts): if `s_is_connected` is first found true
at the check that follows exactly `k` one-second waits, `0 ≤ k ≤ 30`, then
`wifi_module_connect` returns `ESP_OK` and the requests of the calling task
are the two requests followed by exactly `k` calls `vTaskDelay(1000 ms)`.
Moreover, on every input, a result `ESP_OK` means the flag is true in the
final world, the one its last check reads. -/
theorem connect_succeeds_at_first_true (env : Env) (ssid : CString) (password : Option CString)
    (w : World) (k : Nat) (hssid : ssid ≠ []) (hcfg : env.set_config = ESP_OK)
    (hreq : env.connect = ESP_OK) (hk : k ≤ 30)
    (hfalse : ∀ j, j < k → flag_at_check env w j = false)
    (htrue : flag_at_check env w k = true) :
    (wifi_module_connect env (some ssid) password w).1 = Outcome.ret ESP_OK ∧
    caller_calls (wifi_module_connect env (some ssid) password w).2.log =
      caller_calls w.log ++
        [Call.esp_wifi_set_config (strlcpy [] ssid SSID_FIELD_SIZE)
            (match password with
             | some p => strlcpy [] p PASSWORD_FIELD_SIZE
             | none => []),
         Call.esp_wifi_connect] ++
        List.replicate k (Call.vTaskDelay 1000) ∧
    (∀ (env' : Env) (ssid' password' : Option CString) (w' : World),
      (wifi_module_connect env' ssid' password' w').1 = Outcome.ret ESP_OK →
      (wifi_module_connect env' ssid' password' w').2.s_is_connected = true) := by
  have h := connect_run env ssid password w k hssid hcfg hreq hfalse (Or.inl htrue) hk
  refine ⟨by rw [h.1, htrue]; rfl, h.2, ?_⟩
  intro env' ssid' password' w'
  unfold wifi_module_connect
  cases ssid' with
  | none => intro h; cases h
  | some s =>
    simp only
    split_ifs with h1 h2 h3 h4
    · intro h; cases h
    · intro h; cases h
    · intro h; cases h
    · intro _; exact h4
    · intro h; cases h

theorem connect_succeeds_at_first_true_witness :
    (wifi_module_connect stub_ip_in_third_wait (some ['1', '1', '1', '1'])
        (some ['0', '0', '0', '0']) world_ready).1 = Outcome.ret ESP_OK ∧
    caller_calls (wifi_module_connect stub_ip_in_third_wait (some ['1', '1', '1', '1'])
        (some ['0', '0', '0', '0']) world_ready).2.log =
      [Call.esp_wifi_set_config ['1', '1', '1', '1'] ['0', '0', '0', '0'],
       Call.esp_wifi_connect, Call.vTaskDelay 1000, Call.vTaskDelay 1000,
       Call.vTaskDelay 1000] :=
  have h := connect_succeeds_at_first_true stub_ip_in_third_wait ['1', '1', '1', '1']
    (some ['0', '0', '0', '0']) world_ready 3 (by decide) rfl rfl (by decide) (by decide)
    (by decide)
  ⟨h.1, h.2.1⟩

/-- Claim C3. For a non-empty ssid, once the configuration and connect requests
are accepted: if `s_is_connected` is false at every check of the call (the
stub never delivers ip-acquired), the polling loop ends after exactly 30 calls
`vTaskDelay(1000 ms)`, 30000 ms of waiting in total, and the call returns
`ESP_ERR_TIMEOUT`. -/
theorem connect_times_out_after_30_waits (env : Env) (ssid : CString)
    (password : Option CString) (w : World) (hssid : ssid ≠ [])
    (hcfg : env.set_config = ESP_OK) (hreq : env.connect = ESP_OK)
    (hfalse : ∀ j, j ≤ 30 → flag_at_check env w j = false) :
    (wifi_module_connect env (some ssid) password w).1 = Outcome.ret ESP_ERR_TIMEOUT ∧
    caller_calls (wifi_module_connect env (some ssid) password w).2.log =
      caller_calls w.log ++
        [Call.esp_wifi_set_config (strlcpy [] ssid SSID_FIELD_SIZE)
            (match password with
             | some p => strlcpy [] p PASSWORD_FIELD_SIZE
             | none => []),
         Call.esp_wifi_connect] ++
        List.replicate 30 (Call.vTaskDelay 1000) ∧
    delay_ms (caller_calls (wifi_module_connect env (some ssid) password w).2.log) =
      delay_ms (caller_calls w.log) + 30000 := by
  have h := connect_run env ssid password w 30 hssid hcfg hreq
    (fun j hj => hfalse j (Nat.le_of_lt hj)) (Or.inr rfl) (Nat.le_refl _)
  refine ⟨by rw [h.1, hfalse 30 (Nat.le_refl _)]; rfl, h.2, ?_⟩
  rw [h.2, delay_ms_append, delay_ms_append, delay_ms_replicate]
  simp [delay_ms]

theorem connect_times_out_after_30_waits_witness :
    (wifi_module_connect stub_silent (some ['1', '1', '1', '1']) none world_ready).1 =
      Outcome.ret ESP_ERR_TIMEOUT ∧
    delay_ms (caller_calls
      (wifi_module_connect stub_silent (some ['1', '1', '1', '1']) none world_ready).2.log) =
      30000 :=
  have h := connect_times_out_after_30_waits stub_silent ['1', '1', '1', '1'] none world_ready
    (by decide) rfl rfl (by decide)
  ⟨h.1, by rw [h.2.2]; rfl⟩

/-! ## The scan -/

theorem after_mode_checks_caller_calls (env : Env) (m : Nat) :
    ∀ (start : Nat) (w : World),
      caller_calls (after_mode_checks env start m w).log =
        caller_calls w.log ++ mode_check_rounds m := by
  induction m with
  | zero => intro _ w; simp [after_mode_checks, mode_check_rounds]
  | succ m ih =>
    intro start w
    simp only [after_mode_checks, mode_check_rounds]
    rw [ih, vTaskDelay_caller_calls]
    simp [World.emit, caller_calls_append, caller_calls]

theorem delay_ms_mode_check_rounds (m : Nat) : delay_ms (mode_check_rounds m) = m * 100 := by
  induction m with
  | zero => simp [mode_check_rounds, delay_ms]
  | succ m ih => simp [mode_check_rounds, delay_ms, ih, Nat.succ_mul, Nat.add_comm]

/-- The readiness loop: if station mode is not reported at the first `m`
checks and the loop must stop at check `m` (station mode reported, or counter
at 30), it stops there, having made exactly `m` waits. -/
theorem sta_ready_poll_spec (env : Env) (m : Nat) :
    ∀ (n retry : Nat) (w : World),
      (∀ j, j < m → env.get_mode (retry + j) ≠ WIFI_MODE_STA) →
      (env.get_mode (retry + m) = WIFI_MODE_STA ∨ retry + m = 30) →
      retry + m ≤ 30 → 30 ≤ retry + n →
      sta_ready_poll env n retry w =
        (retry + m,
          if retry + m < 30 then
            (after_mode_checks env retry m w).emit (Obs.call Call.esp_wifi_get_mode)
          else after_mode_checks env retry m w) := by
  induction m with
  | zero =>
    intro n retry w _ hstop hle hn
    cases n with
    | zero =>
      have : retry = 30 := by omega
      subst this
      simp [sta_ready_poll, after_mode_checks]
    | succ n =>
      simp only [Nat.add_zero] at hstop hle ⊢
      by_cases hlt : retry < 30
      · have hsta : env.get_mode retry = WIFI_MODE_STA := by
          rcases hstop with h | h
          · exact h
          · omega
        simp [sta_ready_poll, after_mode_checks, hlt, hsta]
      · simp [sta_ready_poll, after_mode_checks, hlt]
  | succ m ih =>
    intro n retry w hno hstop hle hn
    cases n with
    | zero => omega
    | succ n =>
      have h0 : env.get_mode retry ≠ WIFI_MODE_STA := by
        have := hno 0 (Nat.succ_pos m)
        simpa using this
      have hlt : retry < 30 := by omega
      have step := ih n (retry + 1)
        (vTaskDelay env retry 100 (w.emit (Obs.call Call.esp_wifi_get_mode)))
        (fun j hj => by
          have := hno (j + 1) (Nat.succ_lt_succ hj)
          rwa [show retry + (j + 1) = retry + 1 + j by omega] at this)
        (by
          rcases hstop with h | h
          · exact Or.inl (by rwa [show retry + (m + 1) = retry + 1 + m by omega] at h)
          · exact Or.inr (by omega))
        (by omega) (by omega)
      simp only [sta_ready_poll, hlt, h0, after_mode_checks, step, if_true, if_false]
      rw [show retry + 1 + m = retry + (m + 1) by omega]

/-- An event other than scan-complete leaves the semaphore alone. -/
theorem event_handler_sem_of_not_scan_done (e : Event) (w : World)
    (h : is_scan_done e = false) : (event_handler e w).s_scan_sem = w.s_scan_sem := by
  obtain ⟨base, id, data⟩ := e
  simp only [is_scan_done, Bool.and_eq_false_iff, decide_eq_false_iff_not] at h
  simp only [event_handler, World.emit, World.set_is_connected, xSemaphoreGiveFromISR]
  split_ifs <;> first | rfl | (exfalso; rcases h with h | h <;> exact h (by assumption))

/-- A scan-complete event fills the slot of an existing semaphore. -/
theorem event_handler_sem_of_scan_done (e : Event) (w : World) (b : Bool)
    (h : is_scan_done e = true) (hs : w.s_scan_sem = some b) :
    (event_handler e w).s_scan_sem = some true := by
  obtain ⟨base, id, data⟩ := e
  simp only [is_scan_done, Bool.and_eq_true, decide_eq_true_eq] at h
  obtain ⟨rfl, rfl⟩ := h
  simp [event_handler, World.emit, xSemaphoreGiveFromISR, hs, WIFI_EVENT_SCAN_DONE,
    WIFI_EVENT_STA_START, WIFI_EVENT_STA_DISCONNECTED]

theorem take_wait_caller_calls (es : List Event) :
    ∀ w : World, caller_calls (take_wait es w).2.log = caller_calls w.log := by
  induction es with
  | nil => intro w; rfl
  | cons e es ih =>
    intro w
    simp only [take_wait]
    split_ifs
    · exact event_handler_caller_calls e w
    · rw [ih, event_handler_caller_calls]

/-- With an empty slot and no scan-complete in the script, the wait times
out. -/
theorem take_wait_quiet (es : List Event) :
    ∀ w : World, w.s_scan_sem = some false → (∀ e ∈ es, is_scan_done e = false) →
      (take_wait es w).1 = false := by
  induction es with
  | nil => intro w _ _; rfl
  | cons e es ih =>
    intro w hs hq
    have he := event_handler_sem_of_not_scan_done e w (hq e (List.mem_cons_self _ _))
    simp only [take_wait, he, hs]
    simp only [Option.some.injEq, Bool.false_eq_true, if_false]
    exact ih _ (by rw [he, hs]) (fun e' he' => hq e' (List.mem_cons_of_mem _ he'))

/-- With an empty slot and a scan-complete in the script, the wait succeeds. -/
theorem take_wait_signal (es : List Event) :
    ∀ w : World, w.s_scan_sem = some false → (∃ e ∈ es, is_scan_done e = true) →
      (take_wait es w).1 = true := by
  induction es with
  | nil => intro w _ h; obtain ⟨e, he, _⟩ := h; cases he
  | cons e es ih =>
    intro w hs hex
    by_cases hd : is_scan_done e = true
    · simp [take_wait, event_handler_sem_of_scan_done e w false hd hs]
    · have hd' : is_scan_done e = false := by simpa using hd
      have he := event_handler_sem_of_not_scan_done e w hd'
      simp only [take_wait, he, hs]
      simp only [Option.some.injEq, Bool.false_eq_true, if_false]
      refine ih _ (by rw [he, hs]) ?_
      obtain ⟨e', he', hd''⟩ := hex
      rcases List.mem_cons.mp he' with rfl | h
      · exact absurd hd'' hd
      · exact ⟨e', h, hd''⟩

theorem xSemaphoreTake_caller_calls (env : Env) (ms : Nat) (w : World) :
    caller_calls (xSemaphoreTake env ms w).2.log = caller_calls w.log ++ [Call.xSemaphoreTake ms] := by
  simp only [xSemaphoreTake]
  split_ifs
  · simp [World.emit, caller_calls_append, caller_calls]
  · rw [take_wait_caller_calls]
    simp [World.emit, caller_calls_append, caller_calls]

/-- The two ways the readiness loop can end. -/
theorem scan_ready_cases (env : Env) (w : World) :
    (∃ k, k < 30 ∧ env.get_mode k = WIFI_MODE_STA ∧
        (∀ j, j < k → env.get_mode j ≠ WIFI_MODE_STA) ∧
        scan_ready env w =
          (k, (after_mode_checks env 0 k w).emit (Obs.call Call.esp_wifi_get_mode))) ∨
    ((∀ j, j < 30 → env.get_mode j ≠ WIFI_MODE_STA) ∧
        scan_ready env w = (30, after_mode_checks env 0 30 w)) := by
  by_cases hex : ∃ k, k < 30 ∧ env.get_mode k = WIFI_MODE_STA
  · left
    classical
    refine ⟨Nat.find hex, (Nat.find_spec hex).1, (Nat.find_spec hex).2, ?_, ?_⟩
    · intro j hj hsta
      exact Nat.find_min hex hj ⟨Nat.lt_trans hj (Nat.find_spec hex).1, hsta⟩
    · have h := sta_ready_poll_spec env (Nat.find hex) 30 0 w
        (fun j hj hsta => by
          rw [Nat.zero_add] at hsta
          exact Nat.find_min hex hj ⟨Nat.lt_trans hj (Nat.find_spec hex).1, hsta⟩)
        (Or.inl (by rw [Nat.zero_add]; exact (Nat.find_spec hex).2))
        (by have := (Nat.find_spec hex).1; omega) (by omega)
      have hlt : 0 + Nat.find hex < 30 := by have := (Nat.find_spec hex).1; omega
      rw [if_pos hlt, Nat.zero_add] at h
      exact h
  · right
    have hno : ∀ j, j < 30 → env.get_mode j ≠ WIFI_MODE_STA :=
      fun j hj hsta => hex ⟨j, hj, hsta⟩
    refine ⟨hno, ?_⟩
    have h := sta_ready_poll_spec env 30 30 0 w
      (fun j hj => by rw [Nat.zero_add]; exact hno j hj) (Or.inr rfl) (by omega) (by omega)
    simpa [scan_ready] using h

/-- The requests made inside the readiness loop: one mode check and one
100 ms wait per round, and a last mode check when station mode was found. -/
theorem scan_ready_caller_calls (env : Env) (w : World) :
    caller_calls (scan_ready env w).2.log =
      caller_calls w.log ++ mode_check_rounds (scan_ready env w).1 ++
        (if (scan_ready env w).1 < 30 then [Call.esp_wifi_get_mode] else []) := by
  rcases scan_ready_cases env w with ⟨k, hk, _, _, h⟩ | ⟨_, h⟩
  · rw [h]
    simp [hk, World.emit, caller_calls_append, caller_calls, after_mode_checks_caller_calls]
  · rw [h]
    simp [after_mode_checks_caller_calls]

theorem scan_of_ready (env : Env) (w : World) (h : (scan_ready env w).1 < 30) :
    wifi_module_scan_ap env w = scan_after_ready env (scan_ready env w).2 := by
  have h' : ¬ (sta_ready_poll env 30 0 w).1 ≥ 30 := by
    simpa [scan_ready] using h
  simp only [wifi_module_scan_ap, scan_ready]
  rw [if_neg h']

theorem scan_of_not_ready (env : Env) (w : World) (h : ¬ (scan_ready env w).1 < 30) :
    wifi_module_scan_ap env w = (Outcome.ret ESP_ERR_TIMEOUT, (scan_ready env w).2) := by
  have h' : (sta_ready_poll env 30 0 w).1 ≥ 30 := by
    simpa [scan_ready] using h
  simp only [wifi_module_scan_ap, scan_ready]
  rw [if_pos h']

/-- The scan proper when the semaphore wait expires. -/
theorem scan_after_ready_timeout (env : Env) (w : World)
    (hsem : w.s_scan_sem = some false) (hstop : env.scan_stop = ESP_OK)
    (hstart : env.scan_start = ESP_OK)
    (hquiet : ∀ e ∈ env.during_take, is_scan_done e = false) :
    (scan_after_ready env w).1 = Outcome.ret ESP_ERR_TIMEOUT ∧
    caller_calls (scan_after_ready env w).2.log =
      caller_calls w.log ++
        [Call.esp_wifi_scan_stop, Call.esp_wifi_set_country ['C', 'N'] 1 13,
         Call.esp_wifi_scan_start, Call.xSemaphoreTake 10000] := by
  generalize hw3 : (((w.emit (Obs.call Call.esp_wifi_scan_stop)).emit
      (Obs.call (Call.esp_wifi_set_country ['C', 'N'] 1 13))).emit
      (Obs.call Call.esp_wifi_scan_start)) = w3
  have hsem3 : w3.s_scan_sem = some false := by rw [← hw3]; exact hsem
  have hcalls3 : caller_calls w3.log = caller_calls w.log ++
      [Call.esp_wifi_scan_stop, Call.esp_wifi_set_country ['C', 'N'] 1 13,
       Call.esp_wifi_scan_start] := by
    rw [← hw3]; simp [World.emit, caller_calls_append, caller_calls]
  have htake : (xSemaphoreTake env 10000 w3).1 = false := by
    have h4 : (w3.emit (Obs.call (Call.xSemaphoreTake 10000))).s_scan_sem = some false := hsem3
    simp only [xSemaphoreTake, h4]
    simp only [Option.some.injEq, Bool.false_eq_true, if_false]
    exact take_wait_quiet _ _ h4 hquiet
  have hrun : scan_after_ready env w =
      (Outcome.ret ESP_ERR_TIMEOUT, (xSemaphoreTake env 10000 w3).2) := by
    simp only [scan_after_ready, hsem, hstop, hstart, hw3, htake]
    simp
  rw [hrun]
  refine ⟨rfl, ?_⟩
  simp only [xSemaphoreTake_caller_calls, hcalls3]
  simp

theorem calls_since_of_append {l l' : List Obs} {X : List Call}
    (h : caller_calls l' = caller_calls l ++ X) : calls_since l l' = X := by
  simp [calls_since, h]

theorem mem_mode_check_rounds (m : Nat) (c : Call) (h : c ∈ mode_check_rounds m) :
    c = Call.esp_wifi_get_mode ∨ c = Call.vTaskDelay 100 := by
  induction m with
  | zero => simp [mode_check_rounds] at h
  | succ m ih =>
    simp only [mode_check_rounds, List.mem_cons] at h
    rcases h with h | h | h
    · exact Or.inl h
    · exact Or.inr h
    · exact ih h

/-- Claim C4. When station mode is ready, the semaphore exists with its slot
empty as the scan proper starts, the scan request is accepted (the preceding
`esp_wifi_scan_stop` therefore did not abort) and no scan-complete is
delivered during the wait, `wifi_module_scan_ap` waits with
`xSemaphoreTake(s_scan_sem, 10000 ms)` and returns `ESP_ERR_TIMEOUT`; the wait
is its last request: the result count is not queried, no buffer is allocated
and no record is fetched. -/
theorem scan_wait_expires_after_10000_ms (env : Env) (w : World)
    (hready : (scan_ready env w).1 < 30)
    (hsem : (scan_ready env w).2.s_scan_sem = some false)
    (hstop : env.scan_stop = ESP_OK) (hstart : env.scan_start = ESP_OK)
    (hquiet : ∀ e ∈ env.during_take, is_scan_done e = false) :
    (wifi_module_scan_ap env w).1 = Outcome.ret ESP_ERR_TIMEOUT ∧
    calls_since w.log (wifi_module_scan_ap env w).2.log =
      mode_check_rounds (scan_ready env w).1 ++
        [Call.esp_wifi_get_mode, Call.esp_wifi_scan_stop,
         Call.esp_wifi_set_country ['C', 'N'] 1 13, Call.esp_wifi_scan_start,
         Call.xSemaphoreTake 10000] ∧
    Call.esp_wifi_scan_get_ap_num ∉ calls_since w.log (wifi_module_scan_ap env w).2.log ∧
    Call.esp_wifi_scan_get_ap_records ∉ calls_since w.log (wifi_module_scan_ap env w).2.log ∧
    (∀ n, Call.malloc n ∉ calls_since w.log (wifi_module_scan_ap env w).2.log) := by
  have h := scan_after_ready_timeout env (scan_ready env w).2 hsem hstop hstart hquiet
  have hcalls : calls_since w.log (wifi_module_scan_ap env w).2.log =
      mode_check_rounds (scan_ready env w).1 ++
        [Call.esp_wifi_get_mode, Call.esp_wifi_scan_stop,
         Call.esp_wifi_set_country ['C', 'N'] 1 13, Call.esp_wifi_scan_start,
         Call.xSemaphoreTake 10000] := by
    apply calls_since_of_append
    rw [scan_of_ready env w hready, h.2, scan_ready_caller_calls, if_pos hready]
    simp
  refine ⟨by rw [scan_of_ready env w hready]; exact h.1, hcalls, ?_, ?_, ?_⟩
  · rw [hcalls]
    intro hmem
    rcases List.mem_append.mp hmem with h1 | h1
    · rcases mem_mode_check_rounds _ _ h1 with h2 | h2 <;> cases h2
    · simp at h1
  · rw [hcalls]
    intro hmem
    rcases List.mem_append.mp hmem with h1 | h1
    · rcases mem_mode_check_rounds _ _ h1 with h2 | h2 <;> cases h2
    · simp at h1
  · intro n
    rw [hcalls]
    intro hmem
    rcases List.mem_append.mp hmem with h1 | h1
    · rcases mem_mode_check_rounds _ _ h1 with h2 | h2 <;> cases h2
    · simp at h1

theorem scan_wait_expires_after_10000_ms_witness :
    (wifi_module_scan_ap stub_sta_at_third_check world_ready).1 = Outcome.ret ESP_ERR_TIMEOUT ∧
    calls_since world_ready.log (wifi_module_scan_ap stub_sta_at_third_check world_ready).2.log =
      [Call.esp_wifi_get_mode, Call.vTaskDelay 100, Call.esp_wifi_get_mode, Call.vTaskDelay 100,
       Call.esp_wifi_get_mode, Call.esp_wifi_scan_stop,
       Call.esp_wifi_set_country ['C', 'N'] 1 13, Call.esp_wifi_scan_start,
       Call.xSemaphoreTake 10000] :=
  have h := scan_wait_expires_after_10000_ms stub_sta_at_third_check world_ready
    (by decide) (by decide) rfl rfl (by decide)
  ⟨h.1, h.2.1⟩

/-- Claim C5. The code at the failing input.  A first scan from `world_ready`
times out; its scan-complete arrives afterwards and stays pending.  The next
scan, during which no event at all is delivered, does not block: its wait
consumes the stale signal, it queries the result count and returns `ESP_OK`,
although no scan-complete was delivered after its own scan request. -/
theorem scan_proceeds_on_stale_signal :
    (wifi_module_scan_ap stub_silent world_ready).1 = Outcome.ret ESP_ERR_TIMEOUT ∧
    world_after_late_scan_done.s_scan_sem = some true ∧
    (wifi_module_scan_ap stub_silent world_after_late_scan_done).1 = Outcome.ret ESP_OK ∧
    (wifi_module_scan_ap stub_silent world_after_late_scan_done).2.log.drop
        world_after_late_scan_done.log.length =
      [Obs.call Call.esp_wifi_get_mode, Obs.call Call.esp_wifi_scan_stop,
       Obs.call (Call.esp_wifi_set_country ['C', 'N'] 1 13),
       Obs.call Call.esp_wifi_scan_start, Obs.call (Call.xSemaphoreTake 10000),
       Obs.call Call.esp_wifi_scan_get_ap_num] ∧
    has_scan_done_delivery (after_scan_request
      ((wifi_module_scan_ap stub_silent world_after_late_scan_done).2.log.drop
        world_after_late_scan_done.log.length)) = false := by
  decide

theorem not_mem_rounds_append (m : Nat) (c : Call) (X : List Call)
    (h1 : c ≠ Call.esp_wifi_get_mode) (h2 : c ≠ Call.vTaskDelay 100) (hX : c ∉ X) :
    c ∉ mode_check_rounds m ++ X := by
  intro hmem
  rcases List.mem_append.mp hmem with h | h
  · rcases mem_mode_check_rounds _ _ h with h | h
    · exact h1 h
    · exact h2 h
  · exact hX h

/-- The scan proper when the signal is received and no access point is
reported. -/
theorem scan_after_ready_zero (env : Env) (w : World)
    (hsem : w.s_scan_sem ≠ none) (hstop : env.scan_stop = ESP_OK)
    (hstart : env.scan_start = ESP_OK)
    (hsig : w.s_scan_sem = some true ∨ ∃ e ∈ env.during_take, is_scan_done e = true)
    (hnum : env.scan_get_ap_num = (ESP_OK, 0)) :
    (scan_after_ready env w).1 = Outcome.ret ESP_OK ∧
    caller_calls (scan_after_ready env w).2.log =
      caller_calls w.log ++
        [Call.esp_wifi_scan_stop, Call.esp_wifi_set_country ['C', 'N'] 1 13,
         Call.esp_wifi_scan_start, Call.xSemaphoreTake 10000,
         Call.esp_wifi_scan_get_ap_num] := by
  generalize hw3 : (((w.emit (Obs.call Call.esp_wifi_scan_stop)).emit
      (Obs.call (Call.esp_wifi_set_country ['C', 'N'] 1 13))).emit
      (Obs.call Call.esp_wifi_scan_start)) = w3
  have hsem3 : w3.s_scan_sem = w.s_scan_sem := by rw [← hw3]; rfl
  have hcalls3 : caller_calls w3.log = caller_calls w.log ++
      [Call.esp_wifi_scan_stop, Call.esp_wifi_set_country ['C', 'N'] 1 13,
       Call.esp_wifi_scan_start] := by
    rw [← hw3]; simp [World.emit, caller_calls_append, caller_calls]
  have htake : (xSemaphoreTake env 10000 w3).1 = true := by
    have h4 : (w3.emit (Obs.call (Call.xSemaphoreTake 10000))).s_scan_sem = w.s_scan_sem :=
      hsem3
    simp only [xSemaphoreTake]
    split_ifs with hfull
    · rfl
    · rw [h4] at hfull
      have hempty : w.s_scan_sem = some false := by
        cases hs : w.s_scan_sem with
        | none => exact absurd hs hsem
        | some b =>
          cases b with
          | false => rfl
          | true => exact absurd hs hfull
      rcases hsig with h | h
      · exact absurd h hfull
      · exact take_wait_signal _ _ (by rw [h4, hempty]) h
  have hrun : scan_after_ready env w =
      (Outcome.ret ESP_OK,
        (xSemaphoreTake env 10000 w3).2.emit (Obs.call Call.esp_wifi_scan_get_ap_num)) := by
    simp only [scan_after_ready, hsem, hstop, hstart, hw3, htake, hnum]
    simp
  rw [hrun]
  refine ⟨rfl, ?_⟩
  simp only [World.emit, caller_calls_append, xSemaphoreTake_caller_calls, hcalls3]
  simp [caller_calls]

/-- Claim C6. When station mode is ready, the semaphore exists, the scan
request is accepted, the scan-complete signal is received (pending when the
wait starts, or delivered during it) and `esp_wifi_scan_get_ap_num` succeeds
with a count of 0, `wifi_module_scan_ap` returns `ESP_OK`; the count query is
its last request: there is no `malloc` and no
`esp_wifi_scan_get_ap_records`. -/
theorem scan_zero_results_is_success (env : Env) (w : World)
    (hready : (scan_ready env w).1 < 30)
    (hsem : (scan_ready env w).2.s_scan_sem ≠ none)
    (hstop : env.scan_stop = ESP_OK) (hstart : env.scan_start = ESP_OK)
    (hsig : (scan_ready env w).2.s_scan_sem = some true ∨
      ∃ e ∈ env.during_take, is_scan_done e = true)
    (hnum : env.scan_get_ap_num = (ESP_OK, 0)) :
    (wifi_module_scan_ap env w).1 = Outcome.ret ESP_OK ∧
    calls_since w.log (wifi_module_scan_ap env w).2.log =
      mode_check_rounds (scan_ready env w).1 ++
        [Call.esp_wifi_get_mode, Call.esp_wifi_scan_stop,
         Call.esp_wifi_set_country ['C', 'N'] 1 13, Call.esp_wifi_scan_start,
         Call.xSemaphoreTake 10000, Call.esp_wifi_scan_get_ap_num] ∧
    (∀ n, Call.malloc n ∉ calls_since w.log (wifi_module_scan_ap env w).2.log) ∧
    Call.esp_wifi_scan_get_ap_records ∉ calls_since w.log (wifi_module_scan_ap env w).2.log := by
  have h := scan_after_ready_zero env (scan_ready env w).2 hsem hstop hstart hsig hnum
  have hcalls : calls_since w.log (wifi_module_scan_ap env w).2.log =
      mode_check_rounds (scan_ready env w).1 ++
        [Call.esp_wifi_get_mode, Call.esp_wifi_scan_stop,
         Call.esp_wifi_set_country ['C', 'N'] 1 13, Call.esp_wifi_scan_start,
         Call.xSemaphoreTake 10000, Call.esp_wifi_scan_get_ap_num] := by
    apply calls_since_of_append
    rw [scan_of_ready env w hready, h.2, scan_ready_caller_calls, if_pos hready]
    simp
  refine ⟨by rw [scan_of_ready env w hready]; exact h.1, hcalls, ?_, ?_⟩
  · intro n
    rw [hcalls]
    exact not_mem_rounds_append _ _ _ (by simp) (by simp) (by simp)
  · rw [hcalls]
    exact not_mem_rounds_append _ _ _ (by simp) (by simp) (by simp)

theorem scan_zero_results_is_success_witness :
    (wifi_module_scan_ap stub_scan_completes world_ready).1 = Outcome.ret ESP_OK ∧
    calls_since world_ready.log (wifi_module_scan_ap stub_scan_completes world_ready).2.log =
      [Call.esp_wifi_get_mode, Call.esp_wifi_scan_stop,
       Call.esp_wifi_set_country ['C', 'N'] 1 13, Call.esp_wifi_scan_start,
       Call.xSemaphoreTake 10000, Call.esp_wifi_scan_get_ap_num] :=
  have h := scan_zero_results_is_success stub_scan_completes world_ready
    (by decide) (by decide) rfl rfl (Or.inr ⟨ev_scan_done, by decide, by decide⟩) rfl
  ⟨h.1, h.2.1⟩

/-- Claim C7 as stated fails.  Against a stub that never reports station mode
the scan fails with `ESP_ERR_TIMEOUT`; against a stub in station mode that
never completes the scan, the semaphore wait expires and the scan fails with
`ESP_ERR_TIMEOUT` as well: the two results are not distinct. -/
theorem scan_not_ready_result_not_distinct :
    (∀ j, j < 30 → stub_never_sta.get_mode j ≠ WIFI_MODE_STA) ∧
    (wifi_module_scan_ap stub_never_sta world_ready).1 = Outcome.ret ESP_ERR_TIMEOUT ∧
    (calls_since world_ready.log (wifi_module_scan_ap stub_silent world_ready).2.log).getLast? =
      some (Call.xSemaphoreTake 10000) ∧
    (wifi_module_scan_ap stub_silent world_ready).1 = Outcome.ret ESP_ERR_TIMEOUT ∧
    ¬ ((wifi_module_scan_ap stub_never_sta world_ready).1 ≠
        (wifi_module_scan_ap stub_silent world_ready).1) := by
  decide

/-- Claim C7, amended.  If station mode is never reported, `wifi_module_scan_ap`
checks the mode exactly 30 times, each check followed by a 100 ms wait
(3000 ms in total), then fails with `ESP_ERR_TIMEOUT`, the same code it
returns when the scan-complete wait expires, and issues no scan-stop,
set-country or scan-start request.  If station mode is first reported at check
`k < 30` (counting from 0), the loop ends after `k` waits with that check as
its last request, and the call continues with the scan proper. -/
theorem scan_readiness_poll (env : Env) (w : World) :
    ((∀ j, j < 30 → env.get_mode j ≠ WIFI_MODE_STA) →
      (wifi_module_scan_ap env w).1 = Outcome.ret ESP_ERR_TIMEOUT ∧
      calls_since w.log (wifi_module_scan_ap env w).2.log = mode_check_rounds 30 ∧
      List.count Call.esp_wifi_get_mode
        (calls_since w.log (wifi_module_scan_ap env w).2.log) = 30 ∧
      List.count (Call.vTaskDelay 100)
        (calls_since w.log (wifi_module_scan_ap env w).2.log) = 30 ∧
      delay_ms (calls_since w.log (wifi_module_scan_ap env w).2.log) = 3000 ∧
      Call.esp_wifi_scan_stop ∉ calls_since w.log (wifi_module_scan_ap env w).2.log ∧
      (∀ cc a b, Call.esp_wifi_set_country cc a b ∉
        calls_since w.log (wifi_module_scan_ap env w).2.log) ∧
      Call.esp_wifi_scan_start ∉ calls_since w.log (wifi_module_scan_ap env w).2.log) ∧
    (∀ w' : World, w'.s_scan_sem = some false → env.scan_stop = ESP_OK →
      env.scan_start = ESP_OK → (∀ e ∈ env.during_take, is_scan_done e = false) →
      (scan_after_ready env w').1 = Outcome.ret ESP_ERR_TIMEOUT) ∧
    (∀ k, k < 30 → env.get_mode k = WIFI_MODE_STA →
      (∀ j, j < k → env.get_mode j ≠ WIFI_MODE_STA) →
      (scan_ready env w).1 = k ∧
      calls_since w.log (scan_ready env w).2.log =
        mode_check_rounds k ++ [Call.esp_wifi_get_mode] ∧
      delay_ms (calls_since w.log (scan_ready env w).2.log) = k * 100 ∧
      wifi_module_scan_ap env w = scan_after_ready env (scan_ready env w).2) := by
  refine ⟨?_, ?_, ?_⟩
  · intro hno
    have h30 : (scan_ready env w).1 = 30 := by
      rcases scan_ready_cases env w with ⟨k, hk, hsta, _, _⟩ | ⟨_, h⟩
      · exact absurd hsta (hno k hk)
      · rw [h]
    have hnr : ¬ (scan_ready env w).1 < 30 := by omega
    have hcalls : calls_since w.log (wifi_module_scan_ap env w).2.log = mode_check_rounds 30 := by
      apply calls_since_of_append
      rw [scan_of_not_ready env w hnr, scan_ready_caller_calls, if_neg hnr, h30]
      simp
    refine ⟨by rw [scan_of_not_ready env w hnr], hcalls, ?_, ?_, ?_, ?_, ?_, ?_⟩
    · rw [hcalls]; decide
    · rw [hcalls]; decide
    · rw [hcalls, delay_ms_mode_check_rounds]
    · rw [hcalls]
      intro hmem
      rcases mem_mode_check_rounds _ _ hmem with h | h <;> cases h
    · intro cc a b
      rw [hcalls]
      intro hmem
      rcases mem_mode_check_rounds _ _ hmem with h | h <;> cases h
    · rw [hcalls]
      intro hmem
      rcases mem_mode_check_rounds _ _ hmem with h | h <;> cases h
  · intro w' hsem hstop hstart hquiet
    exact (scan_after_ready_timeout env w' hsem hstop hstart hquiet).1
  · intro k hk hsta hfirst
    have hk' : (scan_ready env w).1 = k := by
      rcases scan_ready_cases env w with ⟨k', hk'lt, hsta', hfirst', h⟩ | ⟨hno, _⟩
      · rw [h]
        show k' = k
        rcases Nat.lt_trichotomy k' k with hlt | heq | hgt
        · exact absurd hsta' (hfirst k' hlt)
        · exact heq
        · exact absurd hsta (hfirst' k hgt)
      · exact absurd hsta (hno k hk)
    have hr : (scan_ready env w).1 < 30 := by omega
    have hcalls : calls_since w.log (scan_ready env w).2.log =
        mode_check_rounds k ++ [Call.esp_wifi_get_mode] := by
      apply calls_since_of_append
      rw [scan_ready_caller_calls, if_pos hr, hk']
      simp
    refine ⟨hk', hcalls, ?_, scan_of_ready env w hr⟩
    rw [hcalls, delay_ms_append, delay_ms_mode_check_rounds]
    simp [delay_ms]

theorem scan_readiness_poll_witness :
    ((wifi_module_scan_ap stub_never_sta world_ready).1 = Outcome.ret ESP_ERR_TIMEOUT ∧
      delay_ms (calls_since world_ready.log
        (wifi_module_scan_ap stub_never_sta world_ready).2.log) = 3000) ∧
    (scan_ready stub_sta_at_third_check world_ready).1 = 2 :=
  ⟨have h := (scan_readiness_poll stub_never_sta world_ready).1 (by decide)
   ⟨h.1, h.2.2.2.2.1⟩,
   ((scan_readiness_poll stub_sta_at_third_check world_ready).2.2 2 (by decide) (by decide)
      (by decide)).1⟩

/-! ## Queries and disconnect -/

/-- Claim C8. `wifi_module_get_rssi` (a total function) returns -127 and leaves
the world untouched, so no query is issued, when `s_is_connected` is false;
when the flag is true it issues the one current-AP query and returns -127 if
the query fails, and the `rssi` the query reported otherwise.  In every case
`s_is_connected` keeps its value and is not written. -/
theorem get_rssi_spec (env : Env) (w : World) :
    (w.s_is_connected = false → wifi_module_get_rssi env w = (-127, w)) ∧
    (w.s_is_connected = true →
      calls_since w.log (wifi_module_get_rssi env w).2.log = [Call.esp_wifi_sta_get_ap_info]) ∧
    (w.s_is_connected = true → env.sta_get_ap_info.1 ≠ ESP_OK →
      (wifi_module_get_rssi env w).1 = -127) ∧
    (w.s_is_connected = true → env.sta_get_ap_info.1 = ESP_OK →
      (wifi_module_get_rssi env w).1 = env.sta_get_ap_info.2) ∧
    (wifi_module_get_rssi env w).2.s_is_connected = w.s_is_connected ∧
    flag_stores (wifi_module_get_rssi env w).2.log = flag_stores w.log := by
  refine ⟨?_, ?_, ?_, ?_, ?_, ?_⟩
  · intro h; simp [wifi_module_get_rssi, h]
  · intro h
    apply calls_since_of_append
    simp only [wifi_module_get_rssi, h, Bool.not_true, Bool.false_eq_true, if_false]
    split_ifs <;> simp [World.emit, caller_calls_append, caller_calls]
  · intro h hq; simp [wifi_module_get_rssi, h, hq]
  · intro h hq; simp [wifi_module_get_rssi, h, hq]
  · simp only [wifi_module_get_rssi]
    split_ifs <;> rfl
  · simp only [wifi_module_get_rssi]
    split_ifs <;> simp [World.emit, flag_stores_append, flag_stores]

theorem get_rssi_spec_witness :
    wifi_module_get_rssi stub_silent world_ready = (-127, world_ready) ∧
    (wifi_module_get_rssi stub_failing world_connected).1 = -127 ∧
    (wifi_module_get_rssi stub_silent world_connected).1 = -61 :=
  ⟨(get_rssi_spec stub_silent world_ready).1 rfl,
   (get_rssi_spec stub_failing world_connected).2.2.1 rfl (by decide),
   (get_rssi_spec stub_silent world_connected).2.2.2.1 rfl rfl⟩

/-- Claim C9. `wifi_module_disconnect` issues exactly one request, the
disconnect request, and returns what that request returned.  If the request
succeeded the result is `ESP_OK` and `s_is_connected` is false afterwards; if
it failed the module's variables are what they were before the call and the
flag was not written. -/
theorem disconnect_spec (env : Env) (w : World) :
    calls_since w.log (wifi_module_disconnect env w).2.log = [Call.esp_wifi_disconnect] ∧
    (wifi_module_disconnect env w).1 = Outcome.ret env.disconnect ∧
    (env.disconnect = ESP_OK →
      (wifi_module_disconnect env w).1 = Outcome.ret ESP_OK ∧
      (wifi_module_disconnect env w).2.s_is_connected = false) ∧
    (env.disconnect ≠ ESP_OK →
      (wifi_module_disconnect env w).2.s_is_connected = w.s_is_connected ∧
      (wifi_module_disconnect env w).2.vars = w.vars ∧
      flag_stores (wifi_module_disconnect env w).2.log = flag_stores w.log) := by
  refine ⟨?_, ?_, ?_, ?_⟩
  · apply calls_since_of_append
    simp only [wifi_module_disconnect]
    split_ifs <;>
      simp [World.emit, World.set_is_connected, caller_calls_append, caller_calls]
  · simp only [wifi_module_disconnect]
    split_ifs <;> rfl
  · intro h
    simp [wifi_module_disconnect, h, World.set_is_connected]
  · intro h
    simp [wifi_module_disconnect, h, World.emit, World.vars, flag_stores_append, flag_stores]

theorem disconnect_spec_witness :
    ((wifi_module_disconnect stub_silent world_connected).1 = Outcome.ret ESP_OK ∧
      (wifi_module_disconnect stub_silent world_connected).2.s_is_connected = false) ∧
    (wifi_module_disconnect stub_failing world_connected).1 = Outcome.ret (-1) ∧
    (wifi_module_disconnect stub_failing world_connected).2.s_is_connected = true :=
  ⟨(disconnect_spec stub_silent world_connected).2.2.1 rfl,
   (disconnect_spec stub_failing world_connected).2.1,
   ((disconnect_spec stub_failing world_connected).2.2.2 (by decide)).1⟩

/-- Claim C10. With a non-null buffer of length at least 16 and
`s_is_connected` false, `wifi_module_get_ip` returns
`ESP_ERR_WIFI_NOT_CONNECT`, leaves the string "Not connected" in the buffer
and hands back the world it was given: no IP query is issued and the flag is
still false. -/
theorem get_ip_not_connected (env : Env) (buf : CString) (len : Nat) (w : World)
    (hlen : 16 ≤ len) (hflag : w.s_is_connected = false) :
    wifi_module_get_ip env (some buf) len w =
      (Outcome.ret ESP_ERR_WIFI_NOT_CONNECT, some "Not connected".toList, w) ∧
    (wifi_module_get_ip env (some buf) len w).2.2.s_is_connected = false ∧
    Call.esp_netif_get_ip_info ∉
      calls_since w.log (wifi_module_get_ip env (some buf) len w).2.2.log := by
  have hnlt : ¬ len < 16 := by omega
  have hne : len ≠ 0 := by omega
  have htake : List.take (len - 1) "Not connected".toList = "Not connected".toList := by
    apply List.take_of_length_le
    have : "Not connected".toList.length = 13 := by decide
    omega
  have hrun : wifi_module_get_ip env (some buf) len w =
      (Outcome.ret ESP_ERR_WIFI_NOT_CONNECT, some "Not connected".toList, w) := by
    simp only [wifi_module_get_ip, hnlt, hflag, strlcpy, hne, htake]
    simp
  rw [hrun]
  refine ⟨rfl, hflag, ?_⟩
  simp [calls_since]

theorem get_ip_not_connected_witness :
    wifi_module_get_ip stub_silent (some []) 16 world_ready =
      (Outcome.ret ESP_ERR_WIFI_NOT_CONNECT, some "Not connected".toList, world_ready) :=
  (get_ip_not_connected stub_silent [] 16 world_ready (by decide) rfl).1

/-! ## The event handler -/

theorem handler_calls_append (l₁ l₂ : List Obs) :
    handler_calls (l₁ ++ l₂) = handler_calls l₁ ++ handler_calls l₂ := by
  induction l₁ with
  | nil => rfl
  | cons o l ih => cases o <;> simp [handler_calls, ih]

theorem event_handler_sta_disconnected (w : World) (d : Nat) :
    event_handler (sta_disconnected d) w =
      { w with
        s_is_connected := false
        log := w.log ++ [Obs.deliver (sta_disconnected d), Obs.store_is_connected false,
          Obs.hcall (Call.vTaskDelay 3000), Obs.hcall Call.esp_wifi_connect] } := by
  simp [event_handler, sta_disconnected, World.emit, World.set_is_connected,
    WIFI_EVENT_STA_DISCONNECTED, WIFI_EVENT_STA_START]

/-- An event other than ip-acquired never turns a false flag true. -/
theorem event_handler_flag_false (e : Event) (w : World) (hw : w.s_is_connected = false)
    (he : is_got_ip e = false) : (event_handler e w).s_is_connected = false := by
  obtain ⟨base, id, data⟩ := e
  simp only [is_got_ip, Bool.and_eq_false_iff, decide_eq_false_iff_not] at he
  simp only [event_handler, World.emit, World.set_is_connected, xSemaphoreGiveFromISR]
  split_ifs with h1 h2 h3 h4 h5 h6
  all_goals first
    | exact hw
    | rfl
    | (exfalso; rcases he with he | he
       · exact he h6.1
       · exact he h6.2)

theorem deliver_all_flag_false (es : List Event) :
    ∀ w : World, w.s_is_connected = false → (∀ e ∈ es, is_got_ip e = false) →
      (deliver_all es w).s_is_connected = false := by
  induction es with
  | nil => intro w hw _; exact hw
  | cons e es ih =>
    intro w hw hes
    exact ih _ (event_handler_flag_false e w hw (hes e (List.mem_cons_self _ _)))
      (fun e' he' => hes e' (List.mem_cons_of_mem _ he'))

theorem deliver_all_sta_disconnected (d : Nat) (n : Nat) :
    ∀ w : World,
      handler_calls (deliver_all (List.replicate n (sta_disconnected d)) w).log =
        handler_calls w.log ++ reconnect_rounds n := by
  induction n with
  | zero => intro w; simp [deliver_all, reconnect_rounds]
  | succ n ih =>
    intro w
    simp only [List.replicate_succ, deliver_all]
    rw [ih, event_handler_sta_disconnected]
    simp [handler_calls_append, handler_calls, reconnect_rounds]

theorem count_connect_reconnect_rounds (n : Nat) :
    List.count Call.esp_wifi_connect (reconnect_rounds n) = n := by
  induction n with
  | zero => rfl
  | succ n ih => simp [reconnect_rounds, List.count_cons, ih]

/-- Claim C11.  For every prior world, the handler given a station-disconnected
event first stores false in `s_is_connected`, then waits 3000 ms on its own
context, then issues one `esp_wifi_connect`, and does nothing else; the flag
is false when it returns and stays false under any further events that are
not ip-acquired.  Nothing is counted: `n` successive disconnect events cause
`n` such rounds, `n` connect requests in all, for every `n`. -/
theorem disconnected_event_reconnects (w : World) (d : Nat) :
    event_handler (sta_disconnected d) w =
      { w with
        s_is_connected := false
        log := w.log ++ [Obs.deliver (sta_disconnected d), Obs.store_is_connected false,
          Obs.hcall (Call.vTaskDelay 3000), Obs.hcall Call.esp_wifi_connect] } ∧
    (event_handler (sta_disconnected d) w).s_is_connected = false ∧
    (∀ es : List Event, (∀ e ∈ es, is_got_ip e = false) →
      (deliver_all es (event_handler (sta_disconnected d) w)).s_is_connected = false) ∧
    (∀ n : Nat,
      handler_calls (deliver_all (List.replicate n (sta_disconnected d)) w).log =
        handler_calls w.log ++ reconnect_rounds n ∧
      List.count Call.esp_wifi_connect (reconnect_rounds n) = n) := by
  have h := event_handler_sta_disconnected w d
  refine ⟨h, by rw [h], ?_, ?_⟩
  · intro es hes
    exact deliver_all_flag_false es _ (by rw [h]) hes
  · intro n
    exact ⟨deliver_all_sta_disconnected d n w, count_connect_reconnect_rounds n⟩

theorem disconnected_event_reconnects_witness :
    (deliver_all [ev_scan_done, ev_sta_start]
      (event_handler (sta_disconnected 0) world_connected)).s_is_connected = false :=
  (disconnected_event_reconnects world_connected 0).2.2.1 [ev_scan_done, ev_sta_start]
    (by decide)

/-- Claim C12.  For every prior world, the handler given a station-started
event issues one `esp_wifi_connect` and does nothing else: no configuration
is written, there is no wait, and the module's variables (connected flag,
semaphore slot, netif handle) are unchanged. -/
theorem sta_start_event_connects (w : World) (d : Nat) :
    event_handler (sta_start d) w =
      { w with log := w.log ++ [Obs.deliver (sta_start d), Obs.hcall Call.esp_wifi_connect] } ∧
    handler_calls (event_handler (sta_start d) w).log =
      handler_calls w.log ++ [Call.esp_wifi_connect] ∧
    caller_calls (event_handler (sta_start d) w).log = caller_calls w.log ∧
    (event_handler (sta_start d) w).vars = w.vars := by
  have h : event_handler (sta_start d) w =
      { w with log := w.log ++ [Obs.deliver (sta_start d), Obs.hcall Call.esp_wifi_connect] } := by
    simp [event_handler, sta_start, World.emit, WIFI_EVENT_STA_START]
  refine ⟨h, ?_, event_handler_caller_calls _ _, ?_⟩
  · rw [h]; simp [handler_calls_append, handler_calls]
  · rw [h]; rfl

/-- Claim C13 as stated fails.  The variables left by an ip-acquired event do
not depend on the address it carries, so no reading of the module's state
returns the acquired address. -/
theorem got_ip_address_not_recorded :
    ¬ ∃ address : Option Nat × Bool × Option Bool → Nat,
      ∀ a : Nat, address (event_handler (ev_got_ip a) world_ready).vars = a := by
  rintro ⟨address, h⟩
  have h0 := h 0
  have h1 := h 1
  have hv : (event_handler (ev_got_ip 0) world_ready).vars =
      (event_handler (ev_got_ip 1) world_ready).vars := by decide
  rw [hv, h1] at h0
  exact absurd h0 (by decide)

/-- Claim C13, amended.  For every prior world and every address `a`, the
handler given an ip-acquired event carrying `a` stores true in
`s_is_connected` and does nothing else: the netif handle and the semaphore
are unchanged, no request is made on either context, and the resulting
variables are the same for every address (the module keeps no address). -/
theorem got_ip_event_sets_flag (w : World) (a : Nat) :
    event_handler (ev_got_ip a) w =
      { w with
        s_is_connected := true
        log := w.log ++ [Obs.deliver (ev_got_ip a), Obs.store_is_connected true] } ∧
    (event_handler (ev_got_ip a) w).vars = (w.s_netif, true, w.s_scan_sem) ∧
    handler_calls (event_handler (ev_got_ip a) w).log = handler_calls w.log ∧
    caller_calls (event_handler (ev_got_ip a) w).log = caller_calls w.log ∧
    (∀ b : Nat, (event_handler (ev_got_ip b) w).vars = (event_handler (ev_got_ip a) w).vars) := by
  have h : ∀ b, event_handler (ev_got_ip b) w =
      { w with
        s_is_connected := true
        log := w.log ++ [Obs.deliver (ev_got_ip b), Obs.store_is_connected true] } := by
    intro b
    simp [event_handler, ev_got_ip, World.emit, World.set_is_connected, IP_EVENT_STA_GOT_IP]
  refine ⟨h a, by rw [h a]; rfl, ?_, event_handler_caller_calls _ _, ?_⟩
  · rw [h a]; simp [handler_calls_append, handler_calls]
  · intro b; rw [h a, h b]; rfl

/-! ## The scan-complete signal -/

theorem set_scan_sem_sem (w : World) (s : Option Bool) :
    (w.set_scan_sem s).s_scan_sem = s := rfl

theorem flag_untouched_refl (w : World) : flag_untouched w w := ⟨rfl, rfl, rfl⟩

theorem flag_untouched_emit_call (w w' : World) (c : Call) (h : flag_untouched w w') :
    flag_untouched w (w'.emit (Obs.call c)) := by
  obtain ⟨h1, h2, h3⟩ := h
  refine ⟨h1, ?_, ?_⟩
  · rw [← h2]; simp [World.emit, flag_stores_append, flag_stores]
  · rw [← h3]; simp [World.emit, handler_calls_append, handler_calls]

theorem flag_untouched_set_netif (w w' : World) (n : Option Nat) (h : flag_untouched w w') :
    flag_untouched w (w'.set_netif n) := h

theorem flag_untouched_set_scan_sem (w w' : World) (s : Option Bool)
    (h : flag_untouched w w') : flag_untouched w (w'.set_scan_sem s) := h

theorem flag_untouched_trans {w₁ w₂ w₃ : World} (h₁ : flag_untouched w₁ w₂)
    (h₂ : flag_untouched w₂ w₃) : flag_untouched w₁ w₃ :=
  ⟨h₂.1.trans h₁.1, h₂.2.1.trans h₁.2.1, h₂.2.2.trans h₁.2.2⟩

theorem connect_poll_caller_calls (env : Env) (n : Nat) :
    ∀ (cnt : Nat) (w : World), ∃ m : Nat,
      caller_calls (connect_poll env n cnt w).2.log =
        caller_calls w.log ++ List.replicate m (Call.vTaskDelay 1000) := by
  induction n with
  | zero => intro cnt w; exact ⟨0, by simp [connect_poll]⟩
  | succ n ih =>
    intro cnt w
    simp only [connect_poll]
    split_ifs
    · obtain ⟨m, hm⟩ := ih (cnt + 1) (vTaskDelay env cnt 1000 w)
      refine ⟨m + 1, ?_⟩
      rw [hm, vTaskDelay_caller_calls, List.replicate_succ]
      simp
    · exact ⟨0, by simp⟩

/-- The loop's outcome depends on the variables only, not on the timeline. -/
theorem connect_poll_vars (env : Env) (n : Nat) :
    ∀ (cnt : Nat) (w₁ w₂ : World), w₁.vars = w₂.vars →
      (connect_poll env n cnt w₁).2.vars = (connect_poll env n cnt w₂).2.vars := by
  induction n with
  | zero => intro cnt w₁ w₂ h; exact h
  | succ n ih =>
    intro cnt w₁ w₂ h
    have hf := vars_is_connected h
    simp only [connect_poll, hf]
    split_ifs
    · exact ih _ _ _ (vTaskDelay_vars env cnt 1000 w₁ w₂ h)
    · exact h

/-- With a non-empty ssid the first request is the configuration holding the
copied strings, whatever happens next. -/
theorem connect_first_request (env : Env) (ssid : CString) (password : Option CString)
    (w : World) (hssid : ssid ≠ []) :
    ∃ rest : List Call,
      calls_since w.log (wifi_module_connect env (some ssid) password w).2.log =
        Call.esp_wifi_set_config (strlcpy [] ssid SSID_FIELD_SIZE)
            (match password with
             | some p => strlcpy [] p PASSWORD_FIELD_SIZE
             | none => []) :: rest := by
  have hlen : ssid.length ≠ 0 := by
    intro h; exact hssid (List.length_eq_zero.mp h)
  by_cases hcfg : env.set_config = ESP_OK
  swap
  · refine ⟨[], calls_since_of_append ?_⟩
    simp [wifi_module_connect, hlen, hcfg, World.emit, caller_calls_append, caller_calls]
  by_cases hreq : env.connect = ESP_OK
  swap
  · refine ⟨[Call.esp_wifi_connect], calls_since_of_append ?_⟩
    simp [wifi_module_connect, hlen, hcfg, hreq, World.emit, caller_calls_append, caller_calls]
  obtain ⟨m, hm⟩ := connect_poll_caller_calls env WIFI_CONNECT_TIMEOUT 0
    ((w.emit (Obs.call (Call.esp_wifi_set_config (strlcpy [] ssid SSID_FIELD_SIZE)
        (match password with
         | some p => strlcpy [] p PASSWORD_FIELD_SIZE
         | none => [])))).emit (Obs.call Call.esp_wifi_connect))
  refine ⟨Call.esp_wifi_connect :: List.replicate m (Call.vTaskDelay 1000),
    calls_since_of_append ?_⟩
  simp only [wifi_module_connect, hlen, hcfg, hreq, if_false, ne_eq, not_true_eq_false]
  split_ifs <;>
    (simp only [hm]; simp [World.emit, caller_calls_append, caller_calls])

/-- The result does not depend on the strings passed, as long as the ssid is
not empty. -/
theorem connect_result_independent_of_strings (env : Env) (s₁ s₂ : CString)
    (p₁ p₂ : Option CString) (w : World) (h₁ : s₁ ≠ []) (h₂ : s₂ ≠ []) :
    (wifi_module_connect env (some s₁) p₁ w).1 = (wifi_module_connect env (some s₂) p₂ w).1 := by
  have hl₁ : s₁.length ≠ 0 := by
    intro h; exact h₁ (List.length_eq_zero.mp h)
  have hl₂ : s₂.length ≠ 0 := by
    intro h; exact h₂ (List.length_eq_zero.mp h)
  by_cases hcfg : env.set_config = ESP_OK
  swap
  · simp [wifi_module_connect, hl₁, hl₂, hcfg]
  by_cases hreq : env.connect = ESP_OK
  swap
  · simp [wifi_module_connect, hl₁, hl₂, hcfg, hreq]
  have hv := connect_poll_vars env WIFI_CONNECT_TIMEOUT 0
    ((w.emit (Obs.call (Call.esp_wifi_set_config (strlcpy [] s₁ SSID_FIELD_SIZE)
        (match p₁ with
         | some p => strlcpy [] p PASSWORD_FIELD_SIZE
         | none => [])))).emit (Obs.call Call.esp_wifi_connect))
    ((w.emit (Obs.call (Call.esp_wifi_set_config (strlcpy [] s₂ SSID_FIELD_SIZE)
        (match p₂ with
         | some p => strlcpy [] p PASSWORD_FIELD_SIZE
         | none => [])))).emit (Obs.call Call.esp_wifi_connect)) rfl
  have hf := vars_is_connected hv
  simp only [wifi_module_connect, hl₁, hl₂, hcfg, hreq, if_false, ne_eq, not_true_eq_false, hf]
  split_ifs <;> rfl

theorem connect_never_invalid_arg (env : Env) (ssid : CString) (password : Option CString)
    (w : World) (hssid : ssid ≠ []) :
    (wifi_module_connect env (some ssid) password w).1 ≠ Outcome.ret ESP_ERR_INVALID_ARG := by
  have hlen : ssid.length ≠ 0 := by
    intro h; exact hssid (List.length_eq_zero.mp h)
  by_cases hcfg : env.set_config = ESP_OK
  swap
  · simp [wifi_module_connect, hlen, hcfg]
  by_cases hreq : env.connect = ESP_OK
  swap
  · simp [wifi_module_connect, hlen, hcfg, hreq]
  simp only [wifi_module_connect, hlen, hcfg, hreq, if_false, ne_eq, not_true_eq_false]
  split_ifs <;> (intro h; cases h)

/-- Claim C15 as stated fails.  A 32-character ssid, no longer than the
32-byte field, and a 64-character password are not written unchanged: the
configuration applied holds 31 and 63 characters. -/
theorem connect_truncates_below_field_size :
    (List.replicate 32 'a').length ≤ SSID_FIELD_SIZE ∧
    (List.replicate 64 'b').length ≤ PASSWORD_FIELD_SIZE ∧
    calls_since world_connected.log
      (wifi_module_connect stub_silent (some (List.replicate 32 'a'))
        (some (List.replicate 64 'b')) world_connected).2.log =
      [Call.esp_wifi_set_config (List.replicate 31 'a') (List.replicate 63 'b'),
       Call.esp_wifi_connect] ∧
    List.replicate 31 'a' ≠ List.replicate 32 'a' ∧
    List.replicate 63 'b' ≠ List.replicate 64 'b' := by
  decide

/-- Claim C15, amended.  For a non-empty ssid and any password,
`wifi_module_connect` never returns `ESP_ERR_INVALID_ARG` and its result is
the same whatever the strings and their lengths.  Its first request applies a
station configuration whose ssid is the input cut to 31 characters (the
32-byte field less the terminating NUL) and whose password is the input cut
to 63 characters (the 64-byte field less the NUL), empty for a null password:
an input shorter than the field is written unchanged, any other is cut to the
field size less one. -/
theorem connect_config_truncation (env : Env) (ssid : CString) (password : Option CString)
    (w : World) (hssid : ssid ≠ []) :
    (wifi_module_connect env (some ssid) password w).1 ≠ Outcome.ret ESP_ERR_INVALID_ARG ∧
    (∀ (s₂ : CString) (p₂ : Option CString), s₂ ≠ [] →
      (wifi_module_connect env (some s₂) p₂ w).1 =
        (wifi_module_connect env (some ssid) password w).1) ∧
    (∃ rest : List Call,
      calls_since w.log (wifi_module_connect env (some ssid) password w).2.log =
        Call.esp_wifi_set_config (ssid.take 31)
            (match password with
             | some p => p.take 63
             | none => []) :: rest) ∧
    (ssid.length < SSID_FIELD_SIZE → strlcpy [] ssid SSID_FIELD_SIZE = ssid) ∧
    (SSID_FIELD_SIZE ≤ ssid.length →
      (strlcpy [] ssid SSID_FIELD_SIZE).length = SSID_FIELD_SIZE - 1) ∧
    (∀ p : CString, p.length < PASSWORD_FIELD_SIZE →
      strlcpy [] p PASSWORD_FIELD_SIZE = p) ∧
    (∀ p : CString, PASSWORD_FIELD_SIZE ≤ p.length →
      (strlcpy [] p PASSWORD_FIELD_SIZE).length = PASSWORD_FIELD_SIZE - 1) := by
  refine ⟨connect_never_invalid_arg env ssid password w hssid,
    fun s₂ p₂ h₂ => connect_result_independent_of_strings env s₂ ssid p₂ password w h₂ hssid,
    ?_, ?_, ?_, ?_, ?_⟩
  · obtain ⟨rest, h⟩ := connect_first_request env ssid password w hssid
    refine ⟨rest, ?_⟩
    rw [h]
    cases password <;> rfl
  · intro h
    simp only [SSID_FIELD_SIZE] at h
    simp only [strlcpy, SSID_FIELD_SIZE]
    exact List.take_of_length_le (by omega)
  · intro h
    simp only [SSID_FIELD_SIZE] at h
    simp only [strlcpy, SSID_FIELD_SIZE]
    simp only [OfNat.ofNat_ne_zero, if_false, List.length_take]
    omega
  · intro p h
    simp only [PASSWORD_FIELD_SIZE] at h
    simp only [strlcpy, PASSWORD_FIELD_SIZE]
    exact List.take_of_length_le (by omega)
  · intro p h
    simp only [PASSWORD_FIELD_SIZE] at h
    simp only [strlcpy, PASSWORD_FIELD_SIZE]
    simp only [OfNat.ofNat_ne_zero, if_false, List.length_take]
    omega

theorem connect_config_truncation_witness :
    (wifi_module_connect stub_silent (some ['1', '1', '1', '1']) none world_connected).1 ≠
      Outcome.ret ESP_ERR_INVALID_ARG ∧
    (strlcpy [] ['1', '1', '1', '1'] SSID_FIELD_SIZE = ['1', '1', '1', '1']) ∧
    (strlcpy [] (List.replicate 40 'a') SSID_FIELD_SIZE).length = SSID_FIELD_SIZE - 1 :=
  ⟨(connect_config_truncation stub_silent ['1', '1', '1', '1'] none world_connected
      (by decide)).1,
   (connect_config_truncation stub_silent ['1', '1', '1', '1'] none world_connected
      (by decide)).2.2.2.1 (by decide),
   (connect_config_truncation stub_silent (List.replicate 40 'a') none world_connected
      (by decide)).2.2.2.2.1 (by decide)⟩

/-! ## Frame: who writes the connected flag -/

theorem vTaskDelay_quiet (env : Env) (i ms : Nat) (w : World) (h : env.during_delay i = []) :
    vTaskDelay env i ms w = w.emit (Obs.call (Call.vTaskDelay ms)) := by
  simp [vTaskDelay, h, deliver_all]

theorem connect_poll_frame (env : Env) (hq : no_event_during env) (n : Nat) :
    ∀ (cnt : Nat) (w₀ w : World), flag_untouched w₀ w →
      flag_untouched w₀ (connect_poll env n cnt w).2 := by
  induction n with
  | zero => intro cnt w₀ w h; exact h
  | succ n ih =>
    intro cnt w₀ w h
    simp only [connect_poll]
    split_ifs
    · rw [vTaskDelay_quiet env cnt 1000 w (hq.1 cnt)]
      exact ih _ _ _ (flag_untouched_emit_call _ _ _ h)
    · exact h

theorem connect_frame (env : Env) (hq : no_event_during env) (ssid password : Option CString)
    (w : World) : flag_untouched w (wifi_module_connect env ssid password w).2 := by
  cases ssid with
  | none => exact flag_untouched_refl w
  | some s =>
    have hp := fun w' h => connect_poll_frame env hq WIFI_CONNECT_TIMEOUT 0 w w' h
    simp only [wifi_module_connect]
    split_ifs
    all_goals first
      | exact flag_untouched_refl w
      | exact hp _ (flag_untouched_emit_call _ _ _
          (flag_untouched_emit_call _ _ _ (flag_untouched_refl w)))
      | exact flag_untouched_emit_call _ _ _
          (flag_untouched_emit_call _ _ _ (flag_untouched_refl w))
      | exact flag_untouched_emit_call _ _ _ (flag_untouched_refl w)

theorem sta_ready_poll_frame (env : Env) (hq : no_event_during env) (n : Nat) :
    ∀ (retry : Nat) (w₀ w : World), flag_untouched w₀ w →
      flag_untouched w₀ (sta_ready_poll env n retry w).2 := by
  induction n with
  | zero => intro retry w₀ w h; exact h
  | succ n ih =>
    intro retry w₀ w h
    simp only [sta_ready_poll]
    split_ifs
    · exact flag_untouched_emit_call _ _ _ h
    · rw [vTaskDelay_quiet env retry 100 _ (hq.1 retry)]
      exact ih _ _ _ (flag_untouched_emit_call _ _ _ (flag_untouched_emit_call _ _ _ h))
    · exact h

theorem xSemaphoreTake_frame (env : Env) (hq : no_event_during env) (ms : Nat) (w₀ w : World)
    (h : flag_untouched w₀ w) : flag_untouched w₀ (xSemaphoreTake env ms w).2 := by
  simp only [xSemaphoreTake, hq.2, take_wait]
  split_ifs
  · exact flag_untouched_set_scan_sem _ _ _ (flag_untouched_emit_call _ _ _ h)
  · exact flag_untouched_emit_call _ _ _ h

theorem scan_after_ready_frame (env : Env) (hq : no_event_during env) (w₀ w : World)
    (h : flag_untouched w₀ w) : flag_untouched w₀ (scan_after_ready env w).2 := by
  have hx := xSemaphoreTake_frame env hq 10000 w₀
    (((w.emit (Obs.call Call.esp_wifi_scan_stop)).emit
      (Obs.call (Call.esp_wifi_set_country ['C', 'N'] 1 13))).emit
      (Obs.call Call.esp_wifi_scan_start))
    (flag_untouched_emit_call _ _ _ (flag_untouched_emit_call _ _ _
      (flag_untouched_emit_call _ _ _ h)))
  simp only [scan_after_ready]
  generalize xSemaphoreTake env 10000
    (((w.emit (Obs.call Call.esp_wifi_scan_stop)).emit
      (Obs.call (Call.esp_wifi_set_country ['C', 'N'] 1 13))).emit
      (Obs.call Call.esp_wifi_scan_start)) = r at hx ⊢
  obtain ⟨taken, w5⟩ := r
  simp only at hx ⊢
  split_ifs
  all_goals
    repeat (first
      | exact h
      | exact hx
      | apply flag_untouched_emit_call)

theorem scan_frame (env : Env) (hq : no_event_during env) (w : World) :
    flag_untouched w (wifi_module_scan_ap env w).2 := by
  have hr := sta_ready_poll_frame env hq 30 0 w w (flag_untouched_refl w)
  simp only [wifi_module_scan_ap]
  split_ifs
  · exact hr
  · exact scan_after_ready_frame env hq w _ hr

theorem get_ip_frame (env : Env) (ip_str : Option CString) (len : Nat) (w : World) :
    flag_untouched w (wifi_module_get_ip env ip_str len w).2.2 := by
  cases ip_str with
  | none => exact flag_untouched_refl w
  | some buf =>
    simp only [wifi_module_get_ip]
    split_ifs
    all_goals first
      | exact flag_untouched_refl w
      | exact flag_untouched_emit_call _ _ _ (flag_untouched_refl w)

theorem get_rssi_frame (env : Env) (w : World) :
    flag_untouched w (wifi_module_get_rssi env w).2 := by
  simp only [wifi_module_get_rssi]
  split_ifs
  all_goals first
    | exact flag_untouched_refl w
    | exact flag_untouched_emit_call _ _ _ (flag_untouched_refl w)

theorem flag_untouched_emit_call_iff (w w' : World) (c : Call) :
    flag_untouched w (w'.emit (Obs.call c)) ↔ flag_untouched w w' := by
  simp [flag_untouched, World.emit, flag_stores_append, flag_stores, handler_calls_append,
    handler_calls]

theorem flag_untouched_set_netif_iff (w w' : World) (n : Option Nat) :
    flag_untouched w (w'.set_netif n) ↔ flag_untouched w w' := Iff.rfl

theorem flag_untouched_set_scan_sem_iff (w w' : World) (s : Option Bool) :
    flag_untouched w (w'.set_scan_sem s) ↔ flag_untouched w w' := Iff.rfl

theorem init_clear_wifi_config_frame (env : InitEnv) (w₀ w : World)
    (h : flag_untouched w₀ w) : flag_untouched w₀ (init_clear_wifi_config env w) := by
  simp only [init_clear_wifi_config]
  split_ifs
  all_goals
    repeat (first
      | exact h
      | apply flag_untouched_emit_call)

theorem init_after_nvs_frame (env : InitEnv) (w₀ w : World) (h : flag_untouched w₀ w) :
    flag_untouched w₀ (init_after_nvs env w).2 := by
  by_cases h1 : env.esp_netif_init = ESP_OK
  by_cases h2 : env.esp_event_loop_create_default = ESP_OK
  by_cases h3 : env.esp_wifi_init = ESP_OK
  by_cases h4 : env.register_wifi_event = ESP_OK
  by_cases h5 : env.register_ip_event = ESP_OK
  by_cases h6 : env.esp_wifi_set_mode = ESP_OK
  by_cases h7 : env.esp_wifi_set_config = ESP_OK
  cases h8 : env.semaphore_created
  on_goal 2 => by_cases h9 : env.esp_wifi_start = ESP_OK
  all_goals
    simp only [init_after_nvs, *, ne_eq, not_false_eq_true, not_true_eq_false, if_true, if_false, set_scan_sem_sem,
      Bool.false_eq_true, reduceCtorEq, flag_untouched_emit_call_iff,
      flag_untouched_set_netif_iff, flag_untouched_set_scan_sem_iff]

theorem init_frame (env : InitEnv) (w : World) :
    flag_untouched w (wifi_module_init env w).2 := by
  have h0 : flag_untouched w (w.emit (Obs.call Call.nvs_flash_init)) :=
    flag_untouched_emit_call _ _ _ (flag_untouched_refl w)
  simp only [wifi_module_init]
  split_ifs
  all_goals first
    | exact h0
    | exact flag_untouched_emit_call _ _ _ h0
    | exact flag_untouched_emit_call _ _ _ (flag_untouched_emit_call _ _ _ h0)
    | exact init_after_nvs_frame env w _ (init_clear_wifi_config_frame env w _ h0)
    | exact init_after_nvs_frame env w _ (init_clear_wifi_config_frame env w _
        (flag_untouched_emit_call _ _ _ (flag_untouched_emit_call _ _ _ h0)))

theorem deinit_release_frame (w₀ w : World) (h : flag_untouched w₀ w) :
    flag_untouched w₀ (deinit_release w) := by
  simp only [deinit_release]
  split_ifs
  all_goals
    first
      | exact h
      | (simp only [flag_untouched_emit_call_iff, flag_untouched_set_netif_iff,
          flag_untouched_set_scan_sem_iff]
         exact h)

theorem deinit_frame (env : DeinitEnv) (w : World) :
    flag_untouched w (wifi_module_deinit env w).2 := by
  have hr := deinit_release_frame w
    ((((w.emit (Obs.call Call.esp_wifi_disconnect)).emit (Obs.call Call.esp_wifi_stop)).emit
      (Obs.call (Call.esp_event_handler_unregister esp_event_base_t.IP_EVENT))).emit
      (Obs.call (Call.esp_event_handler_unregister esp_event_base_t.WIFI_EVENT)))
    (flag_untouched_emit_call _ _ _ (flag_untouched_emit_call _ _ _
      (flag_untouched_emit_call _ _ _ (flag_untouched_emit_call _ _ _
        (flag_untouched_refl w)))))
  simp only [wifi_module_deinit]
  split_ifs
  all_goals
    repeat (first
      | exact flag_untouched_refl w
      | exact hr
      | apply flag_untouched_emit_call)

/-- The only event that turns a false flag true is ip-acquired. -/
theorem event_handler_sets_flag_only_on_got_ip (e : Event) (w : World)
    (hw : w.s_is_connected = false) (h : (event_handler e w).s_is_connected = true) :
    is_got_ip e = true := by
  cases hg : is_got_ip e with
  | true => rfl
  | false =>
    rw [event_handler_flag_false e w hw hg] at h
    cases h

/-- Claim C16.  When no event is delivered during the call, `wifi_module_scan_ap`
and `wifi_module_connect` return, on every path, with `s_is_connected` equal
to its value on entry and with no store to it in the timeline; the same holds
unconditionally for `wifi_module_get_ip` and `wifi_module_get_rssi`, which
never block, and for `wifi_module_init` and `wifi_module_deinit`.  A failed IP
query in `wifi_module_get_ip` returns the driver's error and changes no
variable.  `wifi_module_disconnect` leaves the flag untouched when the request
fails and stores false, once, when it succeeds.  In the handler a false flag
becomes true only on an ip-acquired event. -/
theorem connected_flag_frame :
    (∀ (env : Env) (w : World), no_event_during env →
      flag_untouched w (wifi_module_scan_ap env w).2) ∧
    (∀ (env : Env) (ssid password : Option CString) (w : World), no_event_during env →
      flag_untouched w (wifi_module_connect env ssid password w).2) ∧
    (∀ (env : Env) (ip_str : Option CString) (len : Nat) (w : World),
      flag_untouched w (wifi_module_get_ip env ip_str len w).2.2) ∧
    (∀ (env : Env) (w : World), flag_untouched w (wifi_module_get_rssi env w).2) ∧
    (∀ (env : Env) (buf : CString) (len : Nat) (w : World), 16 ≤ len →
      w.s_is_connected = true → env.get_ip_info.1 ≠ ESP_OK →
      (wifi_module_get_ip env (some buf) len w).1 = Outcome.ret env.get_ip_info.1 ∧
      (wifi_module_get_ip env (some buf) len w).2.2.vars = w.vars) ∧
    (∀ (env : Env) (w : World), env.disconnect ≠ ESP_OK →
      flag_untouched w (wifi_module_disconnect env w).2) ∧
    (∀ (env : Env) (w : World), env.disconnect = ESP_OK →
      (wifi_module_disconnect env w).2.s_is_connected = false ∧
      flag_stores (wifi_module_disconnect env w).2.log = flag_stores w.log ++ [false]) ∧
    (∀ (env : InitEnv) (w : World), flag_untouched w (wifi_module_init env w).2) ∧
    (∀ (env : DeinitEnv) (w : World), flag_untouched w (wifi_module_deinit env w).2) ∧
    (∀ (e : Event) (w : World), w.s_is_connected = false →
      (event_handler e w).s_is_connected = true → is_got_ip e = true) := by
  refine ⟨fun env w hq => scan_frame env hq w,
    fun env ssid password w hq => connect_frame env hq ssid password w,
    get_ip_frame, get_rssi_frame, ?_, ?_, ?_, init_frame, deinit_frame,
    event_handler_sets_flag_only_on_got_ip⟩
  · intro env buf len w hlen hflag herr
    have hnlt : ¬ len < 16 := by omega
    simp [wifi_module_get_ip, hnlt, hflag, herr, World.emit, World.vars]
  · intro env w herr
    simp only [wifi_module_disconnect, herr, if_false]
    exact flag_untouched_emit_call _ _ _ (flag_untouched_refl w)
  · intro env w hok
    simp [wifi_module_disconnect, hok, World.emit, World.set_is_connected, flag_stores_append,
      flag_stores]

theorem connected_flag_frame_witness :
    flag_untouched world_connected (wifi_module_scan_ap stub_silent world_connected).2 ∧
    flag_untouched world_ready
      (wifi_module_connect stub_silent (some ['1']) none world_ready).2 ∧
    flag_untouched world_connected (wifi_module_disconnect stub_failing world_connected).2 ∧
    is_got_ip (ev_got_ip 7) = true :=
  ⟨connected_flag_frame.1 stub_silent world_connected ⟨fun _ => rfl, rfl⟩,
   connected_flag_frame.2.1 stub_silent (some ['1']) none world_ready ⟨fun _ => rfl, rfl⟩,
   connected_flag_frame.2.2.2.2.2.1 stub_failing world_connected (by decide),
   connected_flag_frame.2.2.2.2.2.2.2.2.2 (ev_got_ip 7) world_ready rfl (by decide)⟩

/-! ## The address buffer of get_ip -/

set_option maxRecDepth 100000 in
theorem octet_repr_length :
    ∀ n, n < 256 → 1 ≤ (Nat.repr n).toList.length ∧ (Nat.repr n).toList.length ≤ 3 := by
  decide

theorem ip4_addr_byte_lt (addr i : Nat) : ip4_addr_byte addr i < 256 :=
  Nat.mod_lt _ (by decide)

theorem format_ip_length (addr : Nat) :
    7 ≤ (format_ip addr).length ∧ (format_ip addr).length ≤ 15 := by
  have h0 := octet_repr_length _ (ip4_addr_byte_lt addr 0)
  have h1 := octet_repr_length _ (ip4_addr_byte_lt addr 1)
  have h2 := octet_repr_length _ (ip4_addr_byte_lt addr 2)
  have h3 := octet_repr_length _ (ip4_addr_byte_lt addr 3)
  simp only [format_ip, List.length_append, List.length_cons, List.length_nil]
  omega

/-- Claim C17.  `wifi_module_get_ip` checks its buffer first: with a null
buffer, or a length below 16, it returns `ESP_ERR_INVALID_ARG` whatever the
connected flag is, and hands back the buffer and the world untouched (nothing
written, no query).  With a length of at least 16 nothing it writes is
truncated: both sentinels have 13 characters, and the formatted address is
the decimal text of the four bytes of the address, lowest-addressed first,
each below 256, joined by dots, between 7 and 15 characters long. -/
theorem get_ip_buffer_contract (env : Env) (w : World) :
    (∀ len : Nat,
      wifi_module_get_ip env none len w = (Outcome.ret ESP_ERR_INVALID_ARG, none, w)) ∧
    (∀ (buf : CString) (len : Nat), len < 16 →
      wifi_module_get_ip env (some buf) len w =
        (Outcome.ret ESP_ERR_INVALID_ARG, some buf, w)) ∧
    "Not connected".toList.length = 13 ∧ "Get IP failed".toList.length = 13 ∧
    (∀ (buf : CString) (len : Nat), 16 ≤ len →
      strlcpy buf "Not connected".toList len = "Not connected".toList ∧
      strlcpy buf "Get IP failed".toList len = "Get IP failed".toList) ∧
    (∀ addr : Nat,
      format_ip addr =
        (Nat.repr (addr % 256)).toList ++ ['.'] ++ (Nat.repr (addr / 256 % 256)).toList ++
          ['.'] ++ (Nat.repr (addr / 65536 % 256)).toList ++ ['.'] ++
          (Nat.repr (addr / 16777216 % 256)).toList ∧
      (∀ i, ip4_addr_byte addr i < 256) ∧
      7 ≤ (format_ip addr).length ∧ (format_ip addr).length ≤ 15 ∧
      (∀ (buf : CString) (len : Nat), 16 ≤ len →
        snprintf buf len (format_ip addr) = format_ip addr)) ∧
    (∀ (buf : CString) (len : Nat), 16 ≤ len → w.s_is_connected = true →
      (env.get_ip_info.1 = ESP_OK →
        wifi_module_get_ip env (some buf) len w =
          (Outcome.ret ESP_OK, some (format_ip env.get_ip_info.2),
            w.emit (Obs.call Call.esp_netif_get_ip_info))) ∧
      (env.get_ip_info.1 ≠ ESP_OK →
        wifi_module_get_ip env (some buf) len w =
          (Outcome.ret env.get_ip_info.1, some "Get IP failed".toList,
            w.emit (Obs.call Call.esp_netif_get_ip_info)))) := by
  have hfit : ∀ (buf text : CString) (len : Nat), 16 ≤ len → text.length ≤ 15 →
      List.take (len - 1) text = text := by
    intro buf text len hlen ht
    exact List.take_of_length_le (by omega)
  have hs1 : "Not connected".toList.length = 13 := by decide
  have hs2 : "Get IP failed".toList.length = 13 := by decide
  have hsn : ∀ (addr : Nat) (buf : CString) (len : Nat), 16 ≤ len →
      snprintf buf len (format_ip addr) = format_ip addr := by
    intro addr buf len hlen
    have hne : len ≠ 0 := by omega
    simp only [snprintf, hne, if_false]
    exact hfit buf _ len hlen (format_ip_length addr).2
  have hcp : ∀ (buf text : CString) (len : Nat), 16 ≤ len → text.length ≤ 15 →
      strlcpy buf text len = text := by
    intro buf text len hlen ht
    have hne : len ≠ 0 := by omega
    simp only [strlcpy, hne, if_false]
    exact hfit buf text len hlen ht
  refine ⟨fun len => rfl, ?_, hs1, hs2, ?_, ?_, ?_⟩
  · intro buf len hlen
    simp [wifi_module_get_ip, hlen]
  · intro buf len hlen
    exact ⟨hcp buf _ len hlen (by omega), hcp buf _ len hlen (by omega)⟩
  · intro addr
    refine ⟨?_, ip4_addr_byte_lt addr, (format_ip_length addr).1, (format_ip_length addr).2,
      hsn addr⟩
    simp [format_ip, ip4_addr_byte]
  · intro buf len hlen hflag
    have hnlt : ¬ len < 16 := by omega
    refine ⟨?_, ?_⟩
    · intro hok
      simp only [wifi_module_get_ip, hnlt, hflag, hok, hsn _ buf len hlen]
      simp
    · intro herr
      have hsent := hcp buf "Get IP failed".toList len hlen (by omega)
      simp only [wifi_module_get_ip, hnlt, hflag, herr, hsent, ne_eq, not_false_eq_true,
        if_true, if_false, Bool.not_true, Bool.false_eq_true]

theorem get_ip_buffer_contract_witness :
    wifi_module_get_ip stub_silent (some ['x']) 15 world_connected =
      (Outcome.ret ESP_ERR_INVALID_ARG, some ['x'], world_connected) ∧
    wifi_module_get_ip stub_silent (some []) 16 world_connected =
      (Outcome.ret ESP_OK, some "192.168.1.10".toList,
        world_connected.emit (Obs.call Call.esp_netif_get_ip_info)) :=
  ⟨(get_ip_buffer_contract stub_silent world_connected).2.1 ['x'] 15 (by decide),
   ((get_ip_buffer_contract stub_silent world_connected).2.2.2.2.2.2 [] 16 (by decide) rfl).1
     rfl⟩

end WifiModule


namespace Sh1106

open WifiModule (esp_err_t ESP_OK ESP_FAIL CString)

/-! ## Text layout of sh1106_show_string -/

theorem show_char_calls (font6x8 : List Nat) (i2c : Nat → esp_err_t)
    (dev : Option sh1106_dev_t) (x y : Nat) (c : Char) (p : Panel) :
    (sh1106_show_char font6x8 i2c dev x y c p).2.calls = p.calls ++ [(x, y, c)] := by
  cases dev with
  | none => simp [sh1106_show_char]
  | some d =>
    simp only [sh1106_show_char, sh1106_send_command, sh1106_send_data]
    split_ifs <;> rfl

theorem show_char_ok_bounds (font6x8 : List Nat) (i2c : Nat → esp_err_t)
    (dev : Option sh1106_dev_t) (x y : Nat) (c : Char) (p : Panel)
    (h : (sh1106_show_char font6x8 i2c dev x y c p).1 = ESP_OK) : x < 128 ∧ y < 8 := by
  by_cases hg : dev.isNone ∨ x ≥ 128 ∨ y ≥ 8
  · unfold sh1106_show_char at h
    rw [if_pos hg] at h
    have h' : ESP_FAIL = ESP_OK := h
    exact absurd h' (by decide)
  · simp only [not_or, not_le] at hg
    exact ⟨hg.2.1, hg.2.2⟩

theorem show_char_rejected (font6x8 : List Nat) (i2c : Nat → esp_err_t)
    (dev : Option sh1106_dev_t) (x y : Nat) (c : Char) (p : Panel) (hy : 8 ≤ y) :
    sh1106_show_char font6x8 i2c dev x y c p =
      (ESP_FAIL, { p with calls := p.calls ++ [(x, y, c)] }) := by
  simp [sh1106_show_char, hy]

theorem page_of_page_cmd (a y : Nat) (hy : y < 8) :
    ∀ pg, page_of (Transfer.command a ((0xB0 + y) % 256)) = some pg → pg < 8 := by
  intro pg h
  have h1 : (0xB0 + y) % 256 = 0xB0 + y := Nat.mod_eq_of_lt (by omega)
  have h2 : (0xB0 : Nat) ≤ 0xB0 + y := Nat.le_add_right _ _
  rw [h1] at h
  have h3 : page_of (Transfer.command a (0xB0 + y)) = some (0xB0 + y - 0xB0) := if_pos h2
  rw [h3] at h
  have h4 := Option.some.inj h
  omega

theorem page_of_low_column_cmd (a x : Nat) :
    page_of (Transfer.command a ((0x00 + ((x + 2) &&& 0x0F)) % 256)) = none := by
  have h1 : (x + 2) &&& 0x0F ≤ 0x0F := Nat.and_le_right
  have h2 : (0x00 + ((x + 2) &&& 0x0F)) % 256 < 0xB0 :=
    Nat.lt_of_le_of_lt (Nat.mod_le _ _) (by omega)
  simp only [page_of]
  rw [if_neg (by omega)]

theorem page_of_high_column_cmd (a x : Nat) :
    page_of (Transfer.command a ((0x10 + (((x + 2) >>> 4) &&& 0x0F)) % 256)) = none := by
  have h1 : ((x + 2) >>> 4) &&& 0x0F ≤ 0x0F := Nat.and_le_right
  have h2 : (0x10 + (((x + 2) >>> 4) &&& 0x0F)) % 256 < 0xB0 :=
    Nat.lt_of_le_of_lt (Nat.mod_le _ _) (by omega)
  simp only [page_of]
  rw [if_neg (by omega)]

theorem pages_ok_cons (A : Transfer) (X : List Transfer)
    (hA : ∀ pg, page_of A = some pg → pg < 8)
    (hX : ∀ t ∈ X, ∀ pg, page_of t = some pg → pg < 8) :
    ∀ t ∈ [A] ++ X, ∀ pg, page_of t = some pg → pg < 8 := by
  intro t ht
  rcases List.mem_append.mp ht with h | h
  · rw [List.mem_singleton.mp h]; exact hA
  · exact hX t h

theorem pages_ok_single (A : Transfer) (hA : ∀ pg, page_of A = some pg → pg < 8) :
    ∀ t ∈ [A], ∀ pg, page_of t = some pg → pg < 8 := by
  intro t ht
  rw [List.mem_singleton.mp ht]; exact hA

/-- The transactions of one `sh1106_show_char`: none when the page is 8 or
more, and otherwise page commands for pages below 8 only. -/
theorem show_char_transfers (font6x8 : List Nat) (i2c : Nat → esp_err_t)
    (dev : Option sh1106_dev_t) (x y : Nat) (c : Char) (p : Panel) :
    ∃ T : List Transfer,
      (sh1106_show_char font6x8 i2c dev x y c p).2.transfers = p.transfers ++ T ∧
      (∀ t ∈ T, ∀ pg, page_of t = some pg → pg < 8) ∧ (8 ≤ y → T = []) := by
  by_cases hy : 8 ≤ y
  · refine ⟨[], ?_, by simp, fun _ => rfl⟩
    rw [show_char_rejected font6x8 i2c dev x y c p hy]
    simp
  · have hy' : y < 8 := by omega
    cases dev with
    | none => exact ⟨[], by simp [sh1106_show_char], by simp, fun _ => rfl⟩
    | some d =>
      have hP := page_of_page_cmd (d.i2c_addr * 2 % 256) y hy'
      have hL : ∀ pg, page_of (Transfer.command (d.i2c_addr * 2 % 256)
          ((0x00 + ((x + 2) &&& 0x0F)) % 256)) = some pg → pg < 8 := by
        intro pg h; rw [page_of_low_column_cmd] at h; cases h
      have hH : ∀ pg, page_of (Transfer.command (d.i2c_addr * 2 % 256)
          ((0x10 + (((x + 2) >>> 4) &&& 0x0F)) % 256)) = some pg → pg < 8 := by
        intro pg h; rw [page_of_high_column_cmd] at h; cases h
      have hD : ∀ pg, page_of (Transfer.data (d.i2c_addr * 2 % 256)
          ((char_data font6x8 c).take 6)) = some pg → pg < 8 := by
        intro pg h; cases h
      unfold sh1106_show_char sh1106_send_command sh1106_send_data
      simp only []
      split_ifs
      all_goals first
        | contradiction
        | exact ⟨[], (List.append_nil _).symm, by simp, fun _ => rfl⟩
        | exact ⟨_, rfl, pages_ok_single _ hP, fun h => absurd h hy⟩
        | exact ⟨_, List.append_assoc _ _ _,
            pages_ok_cons _ _ hP (pages_ok_single _ hL), fun h => absurd h hy⟩
        | exact ⟨_, (List.append_assoc _ _ _).trans (List.append_assoc _ _ _),
            pages_ok_cons _ _ hP (pages_ok_cons _ _ hL (pages_ok_single _ hH)),
            fun h => absurd h hy⟩
        | exact ⟨_, (List.append_assoc _ _ _).trans
              ((List.append_assoc _ _ _).trans (List.append_assoc _ _ _)),
            pages_ok_cons _ _ hP (pages_ok_cons _ _ hL
              (pages_ok_cons _ _ hH (pages_ok_single _ hD))),
            fun h => absurd h hy⟩

theorem steps_follow_cons (a : Nat × Nat × Char) (L : List (Nat × Nat × Char))
    (h : ∀ q, L.head? = some q → follows a q) (hL : steps_follow L) :
    steps_follow (a :: L) := by
  cases L with
  | nil => trivial
  | cons b l => exact ⟨h b rfl, hL⟩

/-- One round of the loop once the position `(x1, y1)` of the character is
settled, given the layout of the rest. -/
theorem run_adds_step (font6x8 : List Nat) (i2c : Nat → esp_err_t)
    (dev : Option sh1106_dev_t) (c : Char) (cs : List Char) (x1 y1 : Nat) (p : Panel)
    (hx : x1 + 6 ≤ 128)
    (ih : ∀ (cx cy : Nat) (p' : Panel),
      run_adds cs (if cx + 6 > 128 then (0, (cy + 1) % 256) else (cx, cy)) p'
        (show_string_loop font6x8 i2c dev cs cx cy p').2) :
    run_adds (c :: cs) (x1, y1) p
      (if (sh1106_show_char font6x8 i2c dev x1 y1 c p).1 ≠ ESP_OK then
          sh1106_show_char font6x8 i2c dev x1 y1 c p
        else show_string_loop font6x8 i2c dev cs ((x1 + 6) % 256) y1
          (sh1106_show_char font6x8 i2c dev x1 y1 c p).2).2 := by
  obtain ⟨T0, hT0, hpages0, _⟩ := show_char_transfers font6x8 i2c dev x1 y1 c p
  have hcalls0 := show_char_calls font6x8 i2c dev x1 y1 c p
  split_ifs with hret
  · refine ⟨[(x1, y1, c)], T0, hcalls0, hT0, ?_, trivial, ?_, ?_, hpages0⟩
    · intro q hq
      rw [List.mem_singleton.mp hq]; exact hx
    · simp
    · intro q hq
      simp only [List.head?_cons, Option.some.injEq] at hq
      rw [← hq]
  · have hok : (sh1106_show_char font6x8 i2c dev x1 y1 c p).1 = ESP_OK := by
      by_contra hne; exact hret hne
    obtain ⟨hx1, hy1⟩ := show_char_ok_bounds font6x8 i2c dev x1 y1 c p hok
    obtain ⟨L, T, hL, hT, hcols, hsteps, hpre, hhead, hpages⟩ :=
      ih ((x1 + 6) % 256) y1 (sh1106_show_char font6x8 i2c dev x1 y1 c p).2
    have hmod : (x1 + 6) % 256 = x1 + 6 := Nat.mod_eq_of_lt (by omega)
    have hymod : (y1 + 1) % 256 = y1 + 1 := Nat.mod_eq_of_lt (by omega)
    refine ⟨(x1, y1, c) :: L, T0 ++ T, ?_, ?_, ?_, ?_, ?_, ?_, ?_⟩
    · rw [hL, hcalls0]; simp
    · rw [hT, hT0]; simp
    · intro q hq
      rcases List.mem_cons.mp hq with h | h
      · rw [h]; exact hx
      · exact hcols q h
    · apply steps_follow_cons _ _ _ hsteps
      intro q hq
      have hpos := hhead q hq
      rw [hmod, hymod] at hpos
      by_cases hw : x1 + 6 + 6 > 128
      · rw [if_pos hw] at hpos
        simp only [Prod.mk.injEq] at hpos
        exact Or.inr ⟨hpos.1, hpos.2, by omega⟩
      · rw [if_neg hw] at hpos
        simp only [Prod.mk.injEq] at hpos
        exact Or.inl ⟨hpos.1, hpos.2⟩
    · simpa using hpre
    · intro q hq
      simp only [List.head?_cons, Option.some.injEq] at hq
      rw [← hq]
    · intro t ht
      rcases List.mem_append.mp ht with h | h
      · exact hpages0 t h
      · exact hpages t h

theorem run_adds_nothing (cs : List Char) (start : Nat × Nat) (p : Panel) :
    run_adds cs start p p :=
  ⟨[], [], by simp, by simp, by simp, trivial, by simp, by simp, by simp⟩

/-- The layout invariant of the loop, for any counters. -/
theorem show_string_loop_layout (font6x8 : List Nat) (i2c : Nat → esp_err_t)
    (dev : Option sh1106_dev_t) (cs : List Char) :
    ∀ (cx cy : Nat) (p : Panel),
      run_adds cs (if cx + 6 > 128 then (0, (cy + 1) % 256) else (cx, cy)) p
        (show_string_loop font6x8 i2c dev cs cx cy p).2 := by
  induction cs with
  | nil => intro cx cy p; exact run_adds_nothing _ _ _
  | cons c cs ih =>
    intro cx cy p
    by_cases hw : cx + 6 > 128
    · by_cases hb : (cy + 1) % 256 ≥ 8
      · have hrun : show_string_loop font6x8 i2c dev (c :: cs) cx cy p = (ESP_OK, p) := by
          simp [show_string_loop, hw, hb]
        rw [hrun]
        exact run_adds_nothing _ _ _
      · have hrun : show_string_loop font6x8 i2c dev (c :: cs) cx cy p =
            (if (sh1106_show_char font6x8 i2c dev 0 ((cy + 1) % 256) c p).1 ≠ ESP_OK then
              sh1106_show_char font6x8 i2c dev 0 ((cy + 1) % 256) c p
            else show_string_loop font6x8 i2c dev cs ((0 + 6) % 256) ((cy + 1) % 256)
              (sh1106_show_char font6x8 i2c dev 0 ((cy + 1) % 256) c p).2) := by
          simp [show_string_loop, hw, hb]
        rw [hrun, if_pos hw]
        exact run_adds_step font6x8 i2c dev c cs 0 ((cy + 1) % 256) p (by omega) ih
    · have hrun : show_string_loop font6x8 i2c dev (c :: cs) cx cy p =
          (if (sh1106_show_char font6x8 i2c dev cx cy c p).1 ≠ ESP_OK then
            sh1106_show_char font6x8 i2c dev cx cy c p
          else show_string_loop font6x8 i2c dev cs ((cx + 6) % 256) cy
            (sh1106_show_char font6x8 i2c dev cx cy c p).2) := by
        simp [show_string_loop, hw]
      rw [hrun, if_neg hw]
      exact run_adds_step font6x8 i2c dev c cs cx cy p (by omega) ih

theorem show_char_ok (font6x8 : List Nat) (i2c : Nat → esp_err_t) (d : sh1106_dev_t)
    (x y : Nat) (c : Char) (p : Panel) (hi2c : ∀ n, i2c n = ESP_OK) (hx : x < 128)
    (hy : y < 8) : (sh1106_show_char font6x8 i2c (some d) x y c p).1 = ESP_OK := by
  have hg : ¬ ((some d).isNone ∨ x ≥ 128 ∨ y ≥ 8) := by
    simp only [Option.isNone_some, Bool.false_eq_true, false_or, not_or, not_le]
    exact ⟨hx, hy⟩
  unfold sh1106_show_char
  simp only []
  rw [if_neg hg]
  simp [sh1106_send_command, sh1106_send_data, hi2c]

/-- On a working bus, from a page below 8, the loop returns `ESP_OK`. -/
theorem show_string_loop_ok (font6x8 : List Nat) (i2c : Nat → esp_err_t) (d : sh1106_dev_t)
    (hi2c : ∀ n, i2c n = ESP_OK) (cs : List Char) :
    ∀ (cx cy : Nat) (p : Panel), cy < 8 →
      (show_string_loop font6x8 i2c (some d) cs cx cy p).1 = ESP_OK := by
  induction cs with
  | nil => intro cx cy p _; rfl
  | cons c cs ih =>
    intro cx cy p hcy
    by_cases hw : cx + 6 > 128
    · by_cases hb : (cy + 1) % 256 ≥ 8
      · simp [show_string_loop, hw, hb]
      · have hy1 : (cy + 1) % 256 < 8 := by omega
        have hok := show_char_ok font6x8 i2c d 0 ((cy + 1) % 256) c p hi2c (by omega) hy1
        simp only [show_string_loop, hw, hb, hok, decide_True, if_true, if_false, ne_eq,
          not_true_eq_false, and_false, true_and]
        exact ih _ _ _ hy1
    · have hok := show_char_ok font6x8 i2c d cx cy c p hi2c (by omega) hcy
      simp only [show_string_loop, hw, hok, decide_False, if_true, if_false, ne_eq,
        not_true_eq_false, false_and, Bool.false_eq_true]
      exact ih _ _ _ hcy

/-- A wrap that takes the page to 8 or beyond ends the loop at once. -/
theorem show_string_loop_drop (font6x8 : List Nat) (i2c : Nat → esp_err_t)
    (dev : Option sh1106_dev_t) (c : Char) (cs : List Char) (cx cy : Nat) (p : Panel)
    (hw : cx + 6 > 128) (h7 : 7 ≤ cy) (h255 : cy < 255) :
    show_string_loop font6x8 i2c dev (c :: cs) cx cy p = (ESP_OK, p) := by
  have hmod : (cy + 1) % 256 = cy + 1 := Nat.mod_eq_of_lt (by omega)
  have hb : (cy + 1) % 256 ≥ 8 := by omega
  simp [show_string_loop, hw, hb]

/-- A first character handed to `sh1106_show_char` on a page of 8 or more is
refused, and the string with it. -/
theorem show_string_loop_refused (font6x8 : List Nat) (i2c : Nat → esp_err_t)
    (dev : Option sh1106_dev_t) (c : Char) (cs : List Char) (cx cy : Nat) (p : Panel)
    (hw : cx + 6 ≤ 128) (h8 : 8 ≤ cy) :
    show_string_loop font6x8 i2c dev (c :: cs) cx cy p =
      (ESP_FAIL, { p with calls := p.calls ++ [(cx, cy, c)] }) := by
  have hnw : ¬ cx + 6 > 128 := by omega
  have hrej := show_char_rejected font6x8 i2c dev cx cy c p h8
  have hne : (ESP_FAIL : esp_err_t) ≠ ESP_OK := by decide
  simp only [show_string_loop, hnw, hrej, decide_False, if_false, Bool.false_eq_true,
    false_and, ne_eq]
  rw [if_pos hne]

theorem calls_added_of_append {p r : Panel} {L : List (Nat × Nat × Char)}
    (h : r.calls = p.calls ++ L) : calls_added p r = L := by
  simp [calls_added, h]

theorem transfers_added_of_append {p r : Panel} {T : List Transfer}
    (h : r.transfers = p.transfers ++ T) : transfers_added p r = T := by
  simp [transfers_added, h]

/-- One round of the loop, once the position `(x1, y1)` is settled, always
hands the character to `sh1106_show_char` there, before anything else. -/
theorem step_first_call (font6x8 : List Nat) (i2c : Nat → esp_err_t)
    (dev : Option sh1106_dev_t) (c : Char) (cs : List Char) (x1 y1 : Nat) (p : Panel) :
    ∃ rest : List (Nat × Nat × Char),
      (if (sh1106_show_char font6x8 i2c dev x1 y1 c p).1 ≠ ESP_OK then
          sh1106_show_char font6x8 i2c dev x1 y1 c p
        else show_string_loop font6x8 i2c dev cs ((x1 + 6) % 256) y1
          (sh1106_show_char font6x8 i2c dev x1 y1 c p).2).2.calls =
        p.calls ++ (x1, y1, c) :: rest := by
  have hcalls0 := show_char_calls font6x8 i2c dev x1 y1 c p
  split_ifs with hret
  · exact ⟨[], hcalls0⟩
  · obtain ⟨L, T, hL, _⟩ := show_string_loop_layout font6x8 i2c dev cs ((x1 + 6) % 256) y1
      (sh1106_show_char font6x8 i2c dev x1 y1 c p).2
    refine ⟨L, ?_⟩
    rw [hL, hcalls0]
    simp

/-- Unless the wrap drops it, the first character of a non-empty string is
handed to `sh1106_show_char`, at the position the wrap check settles. -/
theorem show_string_loop_first_call (font6x8 : List Nat) (i2c : Nat → esp_err_t)
    (dev : Option sh1106_dev_t) (c : Char) (cs : List Char) (cx cy : Nat) (p : Panel) :
    (cx + 6 ≤ 128 → ∃ rest : List (Nat × Nat × Char),
      (show_string_loop font6x8 i2c dev (c :: cs) cx cy p).2.calls =
        p.calls ++ (cx, cy, c) :: rest) ∧
    (cx + 6 > 128 → (cy + 1) % 256 < 8 → ∃ rest : List (Nat × Nat × Char),
      (show_string_loop font6x8 i2c dev (c :: cs) cx cy p).2.calls =
        p.calls ++ (0, (cy + 1) % 256, c) :: rest) := by
  refine ⟨?_, ?_⟩
  · intro hx
    have hw : ¬ cx + 6 > 128 := by omega
    have hrun : show_string_loop font6x8 i2c dev (c :: cs) cx cy p =
        (if (sh1106_show_char font6x8 i2c dev cx cy c p).1 ≠ ESP_OK then
          sh1106_show_char font6x8 i2c dev cx cy c p
        else show_string_loop font6x8 i2c dev cs ((cx + 6) % 256) cy
          (sh1106_show_char font6x8 i2c dev cx cy c p).2) := by
      simp [show_string_loop, hw]
    rw [hrun]
    exact step_first_call font6x8 i2c dev c cs cx cy p
  · intro hw hy1
    have hb : ¬ (cy + 1) % 256 ≥ 8 := by omega
    have hrun : show_string_loop font6x8 i2c dev (c :: cs) cx cy p =
        (if (sh1106_show_char font6x8 i2c dev 0 ((cy + 1) % 256) c p).1 ≠ ESP_OK then
          sh1106_show_char font6x8 i2c dev 0 ((cy + 1) % 256) c p
        else show_string_loop font6x8 i2c dev cs ((0 + 6) % 256) ((cy + 1) % 256)
          (sh1106_show_char font6x8 i2c dev 0 ((cy + 1) % 256) c p).2) := by
      simp [show_string_loop, hw, hb]
    rw [hrun]
    exact step_first_call font6x8 i2c dev c cs 0 ((cy + 1) % 256) p

/-- On a working bus, from a page below 8, the loop hands over every
character of the string unless a wrap would take the page to 8: then the
characters handed over end on page 7 at a column with no room for another
glyph (or there are none, the start itself being such a wrap). -/
theorem show_string_loop_complete (font6x8 : List Nat) (i2c : Nat → esp_err_t)
    (d : sh1106_dev_t) (hi2c : ∀ n, i2c n = ESP_OK) (cs : List Char) :
    ∀ (cx cy : Nat) (p : Panel), cy < 8 →
      ∃ L : List (Nat × Nat × Char),
        (show_string_loop font6x8 i2c (some d) cs cx cy p).2.calls = p.calls ++ L ∧
        (L.length = cs.length ∨ (L = [] ∧ cx + 6 > 128 ∧ cy = 7) ∨
          ∃ q, L.getLast? = some q ∧ q.2.1 = 7 ∧ q.1 + 12 > 128) := by
  induction cs with
  | nil => intro cx cy p _; exact ⟨[], by simp [show_string_loop], Or.inl rfl⟩
  | cons c cs ih =>
    intro cx cy p hcy
    have key : ∀ x1 y1 : Nat, x1 + 6 ≤ 128 → y1 < 8 →
        show_string_loop font6x8 i2c (some d) (c :: cs) cx cy p =
          show_string_loop font6x8 i2c (some d) cs ((x1 + 6) % 256) y1
            (sh1106_show_char font6x8 i2c (some d) x1 y1 c p).2 →
        ∃ L : List (Nat × Nat × Char),
          (show_string_loop font6x8 i2c (some d) (c :: cs) cx cy p).2.calls = p.calls ++ L ∧
          (L.length = (c :: cs).length ∨ (L = [] ∧ cx + 6 > 128 ∧ cy = 7) ∨
            ∃ q, L.getLast? = some q ∧ q.2.1 = 7 ∧ q.1 + 12 > 128) := by
      intro x1 y1 hx1 hy1 hstep
      have hcalls0 := show_char_calls font6x8 i2c (some d) x1 y1 c p
      have hmod : (x1 + 6) % 256 = x1 + 6 := Nat.mod_eq_of_lt (by omega)
      obtain ⟨L, hL, hdone⟩ := ih ((x1 + 6) % 256) y1
        (sh1106_show_char font6x8 i2c (some d) x1 y1 c p).2 hy1
      refine ⟨(x1, y1, c) :: L, ?_, ?_⟩
      · rw [hstep, hL, hcalls0]; simp
      · rcases hdone with hlen | ⟨hnil, hwrap, h7⟩ | ⟨q, hq, hq7, hqw⟩
        · exact Or.inl (by simp [hlen])
        · refine Or.inr (Or.inr ⟨(x1, y1, c), ?_, h7, ?_⟩)
          · rw [hnil]; rfl
          · rw [hmod] at hwrap
            show x1 + 12 > 128
            omega
        · refine Or.inr (Or.inr ⟨q, ?_, hq7, hqw⟩)
          cases L with
          | nil => simp at hq
          | cons b l => rw [List.getLast?_cons_cons]; exact hq
    by_cases hw : cx + 6 > 128
    · by_cases hb : (cy + 1) % 256 ≥ 8
      · have hmod : (cy + 1) % 256 = cy + 1 := Nat.mod_eq_of_lt (by omega)
        refine ⟨[], ?_, Or.inr (Or.inl ⟨rfl, hw, by omega⟩)⟩
        simp [show_string_loop, hw, hb]
      · have hy1 : (cy + 1) % 256 < 8 := by omega
        have hok := show_char_ok font6x8 i2c d 0 ((cy + 1) % 256) c p hi2c (by omega) hy1
        exact key 0 ((cy + 1) % 256) (by omega) hy1 (by simp [show_string_loop, hw, hb, hok])
    · have hok := show_char_ok font6x8 i2c d cx cy c p hi2c (by omega) hcy
      exact key cx cy (by omega) hcy (by simp [show_string_loop, hw, hok])

/-- Claim C18 as stated fails.  Started at column 125 of page 8, the string
"A" has a first character whose page is 8 or more, yet the function returns
`ESP_OK`, not `ESP_FAIL` (the wrap check runs first and drops the string).
Started at column 125 of page 255 the wrap takes the 8-bit page counter to 0,
not one further, and the character is drawn on page 0. -/
theorem show_string_off_screen_start_returns_ok :
    sh1106_show_string [] i2c_ok (some dev_main) 125 8 (some ['A']) panel_blank =
      (ESP_OK, panel_blank) ∧
    (ESP_OK : esp_err_t) ≠ ESP_FAIL ∧
    sh1106_show_string [] i2c_ok (some dev_main) 125 255 (some ['A']) panel_blank =
      (ESP_OK,
        ⟨[Transfer.command 120 0xB0, Transfer.command 120 0x02, Transfer.command 120 0x10,
          Transfer.data 120 [0, 0, 0, 0, 0, 0]], [(0, 0, 'A')]⟩) := by
  decide

/-- Claim C18, amended.  For every start position and every string, with a
non-null device, `r` being what the function returns and `calls_added p r.2`
the calls of `sh1106_show_char` it makes: every call is at a column `cx` with `cx + 6 ≤ 128`; each call follows
the previous one six columns further on the same page, or at column 0 of the
next page; the characters passed are a prefix of the string, in order; every
page command sent selects a page below 8.  The first character of a non-empty
string is always handed over, at `(x, y)` when `x + 6 ≤ 128` and at
`(0, y + 1)` when `x + 6 > 128` and `y < 7`.  A wrap that takes the page to 8
or beyond (from a page below 255) drops the remaining characters and returns
`ESP_OK`, also when it is the first character that wraps.  On a working bus a
start page below 8 gives `ESP_OK`, and every character of the string is handed
over unless such a wrap stops the loop: then the calls end on page 7 at a
column with no room for another glyph, or there is none because the start
itself wraps from page 7.  If the first character is handed to
`sh1106_show_char` on a page of 8 or more (`x + 6 ≤ 128`, `y ≥ 8`), nothing is
sent and the function returns `ESP_FAIL`. -/
theorem show_string_layout (font6x8 : List Nat) (i2c : Nat → esp_err_t) (d : sh1106_dev_t)
    (x y : Nat) (s : CString) (p : Panel) (r : esp_err_t × Panel)
    (hr : r = sh1106_show_string font6x8 i2c (some d) x y (some s) p) :
    (r.2.calls = p.calls ++ calls_added p r.2 ∧
      r.2.transfers = p.transfers ++ transfers_added p r.2 ∧
      (∀ q ∈ calls_added p r.2, q.1 + 6 ≤ 128) ∧
      steps_follow (calls_added p r.2) ∧
      (calls_added p r.2).map (fun q => q.2.2) <+: s ∧
      (x + 6 ≤ 128 → ∀ q, (calls_added p r.2).head? = some q → (q.1, q.2.1) = (x, y)) ∧
      (x + 6 > 128 → y < 255 →
        ∀ q, (calls_added p r.2).head? = some q → (q.1, q.2.1) = (0, y + 1)) ∧
      (∀ t ∈ transfers_added p r.2, ∀ pg, page_of t = some pg → pg < 8)) ∧
    (x + 6 ≤ 128 → ∀ (c : Char) (cs : List Char), s = c :: cs →
      (calls_added p r.2).head? = some (x, y, c)) ∧
    (x + 6 > 128 → y < 7 → ∀ (c : Char) (cs : List Char), s = c :: cs →
      (calls_added p r.2).head? = some (0, y + 1, c)) ∧
    (∀ (c : Char) (cs : List Char) (cx cy : Nat) (p' : Panel),
      cx + 6 > 128 → 7 ≤ cy → cy < 255 →
      show_string_loop font6x8 i2c (some d) (c :: cs) cx cy p' = (ESP_OK, p')) ∧
    (x + 6 > 128 → 7 ≤ y → y < 255 → r = (ESP_OK, p)) ∧
    ((∀ n, i2c n = ESP_OK) → y < 8 →
      r.1 = ESP_OK ∧
      ((calls_added p r.2).length = s.length ∨
        (calls_added p r.2 = [] ∧ x + 6 > 128 ∧ y = 7) ∨
        ∃ q, (calls_added p r.2).getLast? = some q ∧ q.2.1 = 7 ∧ q.1 + 12 > 128)) ∧
    (x + 6 ≤ 128 → 8 ≤ y → ∀ (c : Char) (cs : List Char), s = c :: cs →
      r = (ESP_FAIL, { p with calls := p.calls ++ [(x, y, c)] })) := by
  have hrun : r = show_string_loop font6x8 i2c (some d) s x y p := by
    rw [hr]; simp [sh1106_show_string]
  refine ⟨?_, ?_, ?_, ?_, ?_, ?_, ?_⟩
  · obtain ⟨L, T, hL, hT, hcols, hsteps, hpre, hhead, hpages⟩ :=
      show_string_loop_layout font6x8 i2c (some d) s x y p
    rw [← hrun] at hL hT
    rw [calls_added_of_append hL, transfers_added_of_append hT]
    refine ⟨hL, hT, hcols, hsteps, hpre, ?_, ?_, hpages⟩
    · intro hx q hq
      have h := hhead q hq
      rwa [if_neg (by omega)] at h
    · intro hx hy q hq
      have h := hhead q hq
      rwa [if_pos hx, Nat.mod_eq_of_lt (by omega)] at h
  · intro hx c cs hs
    obtain ⟨rest, hrest⟩ :=
      (show_string_loop_first_call font6x8 i2c (some d) c cs x y p).1 hx
    rw [← hs, ← hrun] at hrest
    rw [calls_added_of_append hrest]
    rfl
  · intro hx hy c cs hs
    have hmod : (y + 1) % 256 = y + 1 := Nat.mod_eq_of_lt (by omega)
    obtain ⟨rest, hrest⟩ :=
      (show_string_loop_first_call font6x8 i2c (some d) c cs x y p).2 hx (by omega)
    rw [← hs, ← hrun, hmod] at hrest
    rw [calls_added_of_append hrest]
    rfl
  · intro c cs cx cy p' hw h7 h255
    exact show_string_loop_drop font6x8 i2c (some d) c cs cx cy p' hw h7 h255
  · intro hx h7 h255
    rw [hrun]
    cases s with
    | nil => rfl
    | cons c cs => exact show_string_loop_drop font6x8 i2c (some d) c cs x y p hx h7 h255
  · intro hi2c hy
    obtain ⟨L, hL, hdone⟩ := show_string_loop_complete font6x8 i2c d hi2c s x y p hy
    rw [← hrun] at hL
    rw [calls_added_of_append hL]
    refine ⟨?_, hdone⟩
    rw [hrun]
    exact show_string_loop_ok font6x8 i2c d hi2c s x y p hy
  · intro hx h8 c cs hs
    rw [hrun, hs]
    exact show_string_loop_refused font6x8 i2c (some d) c cs x y p hx h8

theorem show_string_layout_witness :
    (calls_added panel_blank
        (sh1106_show_string [] i2c_ok (some dev_main) 120 6 (some ['A', 'B', 'C'])
          panel_blank).2 = [(120, 6, 'A'), (0, 7, 'B'), (6, 7, 'C')] ∧
      steps_follow [(120, 6, 'A'), (0, 7, 'B'), (6, 7, 'C')] ∧
      (calls_added panel_blank
        (sh1106_show_string [] i2c_ok (some dev_main) 120 6 (some ['A', 'B', 'C'])
          panel_blank).2).head? = some (120, 6, 'A') ∧
      (sh1106_show_string [] i2c_ok (some dev_main) 120 6 (some ['A', 'B', 'C'])
        panel_blank).1 = ESP_OK) ∧
    (calls_added panel_blank
        (sh1106_show_string [] i2c_ok (some dev_main) 125 2 (some ['A', 'B'])
          panel_blank).2).head? = some (0, 3, 'A') ∧
    (calls_added panel_blank
        (sh1106_show_string [] i2c_ok (some dev_main) 116 7 (some ['A', 'B', 'C', 'D'])
          panel_blank).2 = [(116, 7, 'A'), (122, 7, 'B')] ∧
      (sh1106_show_string [] i2c_ok (some dev_main) 116 7 (some ['A', 'B', 'C', 'D'])
        panel_blank).1 = ESP_OK) ∧
    sh1106_show_string [] i2c_ok (some dev_main) 125 7 (some ['A', 'B']) panel_blank =
      (ESP_OK, panel_blank) ∧
    (sh1106_show_string [] i2c_ok (some dev_main) 0 6 (some ['O', 'K']) panel_blank).1 =
      ESP_OK ∧
    sh1106_show_string [] i2c_ok (some dev_main) 3 8 (some ['A', 'B']) panel_blank =
      (ESP_FAIL, ⟨[], [(3, 8, 'A')]⟩) :=
  ⟨⟨by decide,
     (show_string_layout [] i2c_ok dev_main 120 6 ['A', 'B', 'C'] panel_blank _ rfl).1.2.2.2.1,
     (show_string_layout [] i2c_ok dev_main 120 6 ['A', 'B', 'C'] panel_blank _ rfl).2.1
       (by decide) 'A' ['B', 'C'] rfl,
     ((show_string_layout [] i2c_ok dev_main 120 6 ['A', 'B', 'C'] panel_blank _ rfl).2.2.2.2.2.1
       (fun _ => rfl) (by decide)).1⟩,
   (show_string_layout [] i2c_ok dev_main 125 2 ['A', 'B'] panel_blank _ rfl).2.2.1
     (by decide) (by decide) 'A' ['B'] rfl,
   ⟨by decide,
     ((show_string_layout [] i2c_ok dev_main 116 7 ['A', 'B', 'C', 'D'] panel_blank _ rfl).2.2.2.2.2.1 (fun _ => rfl) (by decide)).1⟩,
   (show_string_layout [] i2c_ok dev_main 125 7 ['A', 'B'] panel_blank _ rfl).2.2.2.2.1
      (by decide) (by decide) (by decide),
   ((show_string_layout [] i2c_ok dev_main 0 6 ['O', 'K'] panel_blank _ rfl).2.2.2.2.2.1
      (fun _ => rfl) (by decide)).1,
   (show_string_layout [] i2c_ok dev_main 3 8 ['A', 'B'] panel_blank _ rfl).2.2.2.2.2.2
      (by decide) (by decide) 'A' ['B'] rfl⟩

end Sh1106
